import Mathlib

/-!
Verification of the LLM-orchestration runtime of the Agent-Demo repository.

The Python sources under `api/services/` and `api/routes/` are shallowly
embedded below: pure functions become Lean functions, the stateful parts
(session registry, event emitter, agent-run loop) become explicit state
passing over structures, and fallible code returns `Except`.  Machine
floats are modelled as exact rationals (`Rat`); `round(x, n)` is modelled
as exact decimal rounding, which agrees with the float code up to
floating-point rounding.  Library calls that are outside the repository
(`json.loads`, `json.dumps`, the network) are abstracted as function
parameters of the embedding.
-/

namespace AgentDemo

/-! ## Python-style JSON values and string primitives -/

/-- A JSON-compatible Python value (`dict`/`list`/`str`/number/bool/`None`).
Numbers are modelled as exact rationals. -/
inductive Json where
  | jnull
  | jbool (b : Bool)
  | jnum (q : Rat)
  | jstr (s : String)
  | jarr (xs : List Json)
  | jobj (kvs : List (String × Json))

/-- `d.get(k)` on a Python dict: first binding wins, `None` when absent. -/
def Json.getOpt : Json → String → Option Json
  | .jobj kvs, k => (kvs.find? (fun kv => kv.1 = k)).map (·.2)
  | _, _ => none

/-- `d.get(k, default)` on a Python dict. -/
def Json.getD (j : Json) (k : String) (default : Json) : Json :=
  (j.getOpt k).getD default

/-- `isinstance(x, dict)`. -/
def Json.isObj : Json → Bool
  | .jobj _ => true
  | _ => false

/-- Python `str.strip()` (whitespace at both ends). -/
def pyStrip (s : String) : String :=
  ⟨(s.data.dropWhile Char.isWhitespace).reverse.dropWhile Char.isWhitespace |>.reverse⟩

/-- Python `str.lower()` (ASCII case folding, as used by the sources). -/
def pyLower (s : String) : String :=
  ⟨s.data.map Char.toLower⟩

/-- Python `str(x)` on a JSON-compatible value.  String values pass through
unchanged; the remaining cases use Python's textual forms.  The container
renderings are never relied on by any theorem below. -/
def pyStr : Json → String
  | .jstr s => s
  | .jnull => "None"
  | .jbool true => "True"
  | .jbool false => "False"
  | .jnum q => toString q
  | .jarr _ => "\x5blist\x5d"
  | .jobj _ => "\x7bdict\x7d"

/-- Python truthiness of a string: non-empty. -/
def pyTruthyStr (s : String) : Bool := s ≠ ""

/-- `s[:n]` on a Python string. -/
def pyTake (s : String) (n : Nat) : String := ⟨s.data.take n⟩

/-- `s.replace("\n", " ")` — single-character replacement is a map. -/
def replaceNewlines (s : String) : String :=
  ⟨s.data.map (fun c => if c = '\n' then ' ' else c)⟩

/-- `"; ".join(xs)`-style joining. -/
def joinWith (sep : String) : List String → String
  | [] => ""
  | [x] => x
  | x :: xs => x ++ sep ++ joinWith sep xs

/-- Python `round(q, n)` modelled exactly on rationals (ties of binary
floats are abstracted; no theorem below depends on tie behaviour). -/
def pyRound (q : Rat) (n : Nat) : Rat :=
  (round (q * (10 ^ n : Nat)) : Int) / ((10 ^ n : Nat) : Rat)

/-! ## `api/services/session_manager.py` -/

/-- One immutable progress record (`Event` of the spec): its `type` string
and its `payload` dict.  Session id and timestamp do not influence any
registry logic and are omitted. -/
structure Event where
  etype : String
  payload : Json

/-- `SessionState` of `session_manager.py`. -/
structure SessionState where
  session_id : String
  agent_id : String
  events : List Event := []
  done : Bool := false
  latest_output : Option Json := none

/-- The in-memory session registry (`SessionManager._sessions`), as an
association list keyed by session id (first binding wins, as a dict). -/
def Registry := List (String × SessionState)

/-- `self._sessions.get(session_id)`. -/
def Registry.lookup (reg : Registry) (sid : String) : Option SessionState :=
  (List.find? (fun kv => kv.1 = sid) reg).map (·.2)

/-- Replace the binding of `sid` (used after mutating a found state). -/
def Registry.update (reg : Registry) (sid : String) (st : SessionState) : Registry :=
  List.map (fun kv => if kv.1 = sid then (kv.1, st) else kv) reg

/-- `SessionManager.append_event`: silently drop the event when the
session id is unknown; otherwise append, and when the event type is
`complete` set `done` and capture `payload.get("output")`. -/
def append_event (reg : Registry) (sid : String) (event : Event) : Registry :=
  match reg.lookup sid with
  | none => reg
  | some state =>
    let state := { state with events := state.events ++ [event] }
    let state :=
      if event.etype = "complete" then
        { state with done := true, latest_output := event.payload.getOpt "output" }
      else state
    reg.update sid state

/-- `SessionManager.mark_done`: no-op on an unknown session id; otherwise
set `done` and, when an output is supplied, record it. -/
def mark_done (reg : Registry) (sid : String) (output : Option Json) : Registry :=
  match reg.lookup sid with
  | none => reg
  | some state =>
    let state := { state with done := true }
    let state :=
      match output with
      | some out => { state with latest_output := some out }
      | none => state
    reg.update sid state

end AgentDemo

namespace AgentDemo

/-! ### Claim C10 -/

/-- C10: for every session id not present in the registry and every event,
`append_event` and `mark_done` return normally and leave the registry
completely unchanged — events against an unknown session are silently
dropped. -/
theorem unknown_session_ops_are_noops
    (reg : Registry) (sid : String) (event : Event) (output : Option Json)
    (habsent : reg.lookup sid = none) :
    append_event reg sid event = reg ∧ mark_done reg sid output = reg := by
  unfold append_event mark_done
  rw [habsent]
  exact ⟨rfl, rfl⟩

/-- Witness for C10 at a concrete registry holding one other session. -/
theorem unknown_session_ops_are_noops_witness :
    Registry.lookup [("live", { session_id := "live", agent_id := "po_match" })] "ghost" = none ∧
    (append_event [("live", { session_id := "live", agent_id := "po_match" })] "ghost"
        ⟨"reasoning", Json.jnull⟩ =
      [("live", { session_id := "live", agent_id := "po_match" })] ∧
    mark_done [("live", { session_id := "live", agent_id := "po_match" })] "ghost" none =
      [("live", { session_id := "live", agent_id := "po_match" })]) :=
  ⟨rfl,
   unknown_session_ops_are_noops _ _ ⟨"reasoning", Json.jnull⟩ none rfl⟩

end AgentDemo

namespace AgentDemo

/-! ## `api/services/llm.py` — Model Gateway retry behaviour -/

/-- The Python exceptions `_chat_completion_request` can raise or see from
`httpx`: a timeout, another transport error, or a `RuntimeError` carrying a
message.  `other` stands for any exception of a class outside these three
(e.g. a JSON decode error from `response.json()`). -/
inductive PyExc where
  | timeoutExc
  | transportExc
  | runtimeError (msg : String)
  | other
  deriving DecidableEq

/-- Outcome of one HTTP POST to the chat-completions endpoint: either a
response with a status code and body text, or a transport-level failure. -/
inductive HttpOutcome where
  | status (code : Nat) (body : String)
  | timeout
  | transportFailure
  deriving DecidableEq

/-- One pass through the body of `_chat_completion_request` (the decorated
function), given the configured API key presence and that attempt's HTTP
outcome.  The successful payload itself is irrelevant to retry behaviour
and modelled as `Unit`. -/
def chat_completion_request_once (hasKey : Bool) (outcome : HttpOutcome) :
    Except PyExc Unit :=
  if !hasKey then
    .error (.runtimeError "OPENROUTER_API_KEY is not configured")
  else
    match outcome with
    | .timeout => .error .timeoutExc
    | .transportFailure => .error .transportExc
    | .status code body =>
      if code ≥ 500 ∨ code ∈ [408, 409, 425, 429] then
        .error (.runtimeError ("OpenRouter temporary error: " ++ toString code))
      else if code ≥ 400 then
        .error (.runtimeError
          ("OpenRouter request failed (" ++ toString code ++ "): " ++ pyTake body 300))
      else
        .ok ()

/-- The tenacity predicate on the decorator:
`retry_if_exception_type((httpx.TimeoutException, httpx.TransportError, RuntimeError))`. -/
def tenacity_retries_on : PyExc → Bool
  | .timeoutExc => true
  | .transportExc => true
  | .runtimeError _ => true
  | .other => false

/-- tenacity's `stop_after_attempt(3)` loop with `reraise=True`: run the
attempts in order, re-running while the exception class matches the retry
predicate and fewer than 3 attempts have been made; return the final
result together with the number of attempts actually made.  (The backoff
sleeps do not affect the result and are omitted.) -/
def chat_completion_request_retrying (hasKey : Bool) (outcomes : Nat → HttpOutcome) :
    Except PyExc Unit × Nat :=
  go 0 3
where
  /-- `made` attempts already made, `remaining` attempts allowed. -/
  go (made : Nat) : Nat → Except PyExc Unit × Nat
    | 0 => (.error .other, made)
    | remaining + 1 =>
      match chat_completion_request_once hasKey (outcomes made) with
      | .ok () => (.ok (), made + 1)
      | .error e =>
        if tenacity_retries_on e ∧ remaining > 0 then
          go (made + 1) remaining
        else
          (.error e, made + 1)

/-! ### Claim C4 -/

/-- C4 is wrong about the code: a non-retryable 4xx status is raised as a
`RuntimeError`, and the tenacity decorator's retry predicate matches every
`RuntimeError`, so an HTTP 400 response is retried to the 3-attempt cap
instead of failing immediately.  This theorem evaluates the gateway at a
server that answers 400 on every attempt: all 3 attempts are consumed and
the non-retryable failure is only then re-raised. -/
theorem http_400_is_retried_three_times :
    chat_completion_request_retrying true (fun _ => .status 400 "Bad Request") =
      (.error (.runtimeError "OpenRouter request failed (400): Bad Request"), 3) ∧
    tenacity_retries_on (.runtimeError "OpenRouter request failed (400): Bad Request") = true := by
  constructor
  · rfl
  · rfl

end AgentDemo

namespace AgentDemo

/-! ## `llm_json_response` (`api/services/agent_runtime.py`) — the
Structured Response Acquirer.

The embedding is parameterised by the collaborators outside the loop
logic: `parse` is `try_parse_json_object` (stdlib `json.loads` inside),
`resp` is the Model Gateway — the n-th chat call of this invocation
returns `(text, prompt_tokens, completion_tokens)` — and `dumpRepair` is
`json.dumps` applied to the repair-objective dict (a function of the
current error list and candidate; objective and context are fixed for one
invocation and absorbed into it).  `userPayload` stands for
`json.dumps(user_payload)`. -/

/-- Parsed JSON output from an LLM call plus accumulated token usage
(`LLMResult` in the source). -/
structure LLMResult where
  data : Json
  prompt_tokens : Nat := 0
  completion_tokens : Nat := 0

/-- One chat call issued through `_tracked_chat`, as recorded for the
schedule theorems: its system prompt, user content, temperature, and the
response text it received. -/
structure ChatCall where
  system : String
  user : String
  temp : Rat
  response : String

/-- Call counter, token accumulators (`_acc_prompt`, `_acc_completion`)
and the trace of calls made so far. -/
structure AcqState where
  idx : Nat := 0
  accPrompt : Nat := 0
  accCompletion : Nat := 0
  calls : List ChatCall := []

/-- `_tracked_chat`: route one call through the gateway, accumulate its
real token usage, return its text. -/
def trackedChat (resp : Nat → String × Nat × Nat) (st : AcqState)
    (system user : String) (temp : Rat) : String × AcqState :=
  let r := resp st.idx
  (r.1,
   { idx := st.idx + 1,
     accPrompt := st.accPrompt + r.2.1,
     accCompletion := st.accCompletion + r.2.2,
     calls := st.calls ++ [⟨system, user, temp, r.1⟩] })

def systemPromptText : String :=
  "You are an autonomous construction back-office agent. " ++
  "Return strict JSON only, no markdown, no commentary. " ++
  "Use the provided skills and objective to decide the output."

def strictRetryPromptText : String :=
  "Return one valid JSON object only. " ++
  "No markdown, no prose, no trailing text."

def repairSyntaxPromptText : String :=
  "Convert the following content into strict valid JSON only. " ++
  "Do not add explanation, markdown, or code fences. Preserve meaning."

def repairSchemaPromptText : String :=
  "Repair the JSON so it satisfies all validation errors. " ++
  "Return a single strict JSON object only."

/-- `last_text[:180].replace("\n", " ")`. -/
def previewOf (s : String) : String := replaceNewlines (pyTake s 180)

/-- The terminal shape-failure message. -/
def notJsonMsg (agentId last : String) : String :=
  agentId ++ ": model output was not valid JSON (preview: " ++ previewOf last ++ ")"

/-- The terminal schema-failure message. -/
def schemaFailMsg (agentId : String) (errors : List String) (last : String) : String :=
  agentId ++ ": model output failed schema validation (" ++
    joinWith "; " (errors.take 3) ++ ") (preview: " ++ previewOf last ++ ")"

/-- `parse_candidate_text`: parse directly; on failure issue exactly one
temperature-0 "repair into valid JSON" call and try once more.  Returns
the parsed object (when any), the last raw text, and the updated call
state. -/
def parse_candidate_text (parse : String → Option Json) (resp : Nat → String × Nat × Nat)
    (st : AcqState) (initialText : String) : Option Json × String × AcqState :=
  match parse initialText with
  | some p => (some p, initialText, st)
  | none =>
    match parse (trackedChat resp st repairSyntaxPromptText initialText 0).1 with
    | some rp =>
      (some rp, (trackedChat resp st repairSyntaxPromptText initialText 0).1,
        (trackedChat resp st repairSyntaxPromptText initialText 0).2)
    | none =>
      (none, (trackedChat resp st repairSyntaxPromptText initialText 0).1,
        (trackedChat resp st repairSyntaxPromptText initialText 0).2)

/-- The main call of one shape attempt: attempts 1 and 2 send the
standard system prompt (`attempt == 1` at the caller's temperature,
otherwise 0), attempt 3 sends the stricter prompt at 0. -/
def shape_main_call (resp : Nat → String × Nat × Nat) (userPayload : String)
    (temperature : Rat) (st : AcqState) (attempt : Nat) : String × AcqState :=
  if attempt = 1 ∨ attempt = 2 then
    trackedChat resp st systemPromptText userPayload
      (if attempt = 1 then temperature else 0)
  else
    trackedChat resp st strictRetryPromptText userPayload 0

/-- The JSON-shape acquisition loop (`for attempt in range(1, 4)`): stop
at the first attempt whose `parse_candidate_text` yields an object. -/
def shape_loop (parse : String → Option Json) (resp : Nat → String × Nat × Nat)
    (userPayload : String) (temperature : Rat) :
    List Nat → String → AcqState → Option Json × String × AcqState
  | [], last, st => (none, last, st)
  | attempt :: rest, _last, st =>
    match parse_candidate_text parse resp
        (shape_main_call resp userPayload temperature st attempt).2
        (shape_main_call resp userPayload temperature st attempt).1 with
    | (some p, raw, st2) => (some p, raw, st2)
    | (none, raw, st2) => shape_loop parse resp userPayload temperature rest raw st2

def shape_acquire (parse : String → Option Json) (resp : Nat → String × Nat × Nat)
    (userPayload : String) (temperature : Rat) : Option Json × String × AcqState :=
  shape_loop parse resp userPayload temperature [1, 2, 3] "" {}

/-- The schema validation/repair loop (`for _ in range(3)`): send the
current error list and candidate back with the repair instruction,
re-parse (with the same one-repair-sub-call policy), re-validate; an
unparseable round leaves candidate and errors unchanged; stop as soon as
the validator returns no errors; after 3 rounds fail with the current
error list and last raw text. -/
def schema_repair (parse : String → Option Json) (resp : Nat → String × Nat × Nat)
    (dumpRepair : List String → Json → String) (agentId : String)
    (v : Json → List String) :
    Nat → Json → List String → String → AcqState → Except String LLMResult × AcqState
  | 0, _current, errors, last, st => (.error (schemaFailMsg agentId errors last), st)
  | n + 1, current, errors, _last, st =>
    let c := trackedChat resp st repairSchemaPromptText (dumpRepair errors current) 0
    let r := parse_candidate_text parse resp c.2 c.1
    match r.1 with
    | none => schema_repair parse resp dumpRepair agentId v n current errors r.2.1 r.2.2
    | some repaired =>
      if v repaired = [] then
        (.ok ⟨repaired, r.2.2.accPrompt, r.2.2.accCompletion⟩, r.2.2)
      else
        schema_repair parse resp dumpRepair agentId v n repaired (v repaired) r.2.1 r.2.2

/-- `llm_json_response`: shape acquisition, then (when a validator was
supplied) validation and the schema-repair loop.  The `Except` error
carries the raised message; the final `AcqState` carries the call trace
and token accumulators. -/
def llm_json_response (parse : String → Option Json) (resp : Nat → String × Nat × Nat)
    (dumpRepair : List String → Json → String) (agentId : String)
    (userPayload : String) (temperature : Rat)
    (validator : Option (Json → List String)) : Except String LLMResult × AcqState :=
  let s := shape_acquire parse resp userPayload temperature
  match s.1 with
  | none => (.error (notJsonMsg agentId s.2.1), s.2.2)
  | some candidate =>
    match validator with
    | none => (.ok ⟨candidate, s.2.2.accPrompt, s.2.2.accCompletion⟩, s.2.2)
    | some v =>
      if v candidate = [] then
        (.ok ⟨candidate, s.2.2.accPrompt, s.2.2.accCompletion⟩, s.2.2)
      else
        schema_repair parse resp dumpRepair agentId v 3 candidate (v candidate) s.2.1 s.2.2

/-! ### Substring machinery for the failure-message claims -/

/-- Boolean substring check on character lists. -/
def charsInfixOf (needle : List Char) : List Char → Bool
  | [] => needle.isEmpty
  | c :: rest => needle.isPrefixOf (c :: rest) || charsInfixOf needle rest

theorem isPrefixOf_append_self (n t : List Char) : n.isPrefixOf (n ++ t) = true := by
  induction n with
  | nil => simp [List.isPrefixOf]
  | cons c cs ih => simp [List.isPrefixOf, ih]

theorem charsInfixOf_of_prefix {needle hay : List Char}
    (h : needle.isPrefixOf hay = true) : charsInfixOf needle hay = true := by
  cases hay with
  | nil =>
    cases needle with
    | nil => rfl
    | cons c cs => simp [List.isPrefixOf] at h
  | cons c rest => simp [charsInfixOf, h]

theorem charsInfixOf_cons (needle : List Char) (c : Char) (rest : List Char)
    (h : charsInfixOf needle rest = true) : charsInfixOf needle (c :: rest) = true := by
  simp [charsInfixOf, h]

theorem charsInfixOf_of_decomp (needle post : List Char) :
    ∀ pre, charsInfixOf needle (pre ++ needle ++ post) = true := by
  intro pre
  induction pre with
  | nil => simpa using charsInfixOf_of_prefix (isPrefixOf_append_self needle post)
  | cons c cs ih =>
    have e : (c :: cs) ++ needle ++ post = c :: (cs ++ needle ++ post) := by simp
    rw [e]
    exact charsInfixOf_cons _ _ _ ih

theorem not_decomp_of_charsInfixOf_false {needle hay : List Char}
    (h : charsInfixOf needle hay = false) :
    ¬ ∃ pre post, hay = pre ++ needle ++ post := by
  rintro ⟨pre, post, rfl⟩
  rw [charsInfixOf_of_decomp] at h
  simp at h

end AgentDemo

namespace AgentDemo

/-! ### Claim C2 -/

theorem schema_repair_ok_of_validator (parse : String → Option Json)
    (resp : Nat → String × Nat × Nat) (dumpRepair : List String → Json → String)
    (agentId : String) (v : Json → List String) :
    ∀ (n : Nat) (current : Json) (errors : List String) (last : String)
      (st : AcqState) (r : LLMResult) (st' : AcqState),
      schema_repair parse resp dumpRepair agentId v n current errors last st = (.ok r, st') →
      v r.data = [] := by
  intro n
  induction n with
  | zero =>
    intro current errors last st r st' h
    simp [schema_repair] at h
  | succ n ih =>
    intro current errors last st r st' h
    rw [schema_repair] at h
    split at h
    · exact ih _ _ _ _ _ _ h
    · split at h
      · rename_i repaired heq hempty
        simp only [Prod.mk.injEq, Except.ok.injEq] at h
        obtain ⟨h1, -⟩ := h
        subst h1
        exact hempty
      · exact ih _ _ _ _ _ _ h

/-- C2: whenever the Acquirer is given a validator and returns, the
returned data satisfies the validator (empty error list); there is no
return value whose data fails it. -/
theorem acquirer_ok_satisfies_validator (parse : String → Option Json)
    (resp : Nat → String × Nat × Nat) (dumpRepair : List String → Json → String)
    (agentId userPayload : String) (temperature : Rat) (v : Json → List String)
    (r : LLMResult) (st' : AcqState)
    (h : llm_json_response parse resp dumpRepair agentId userPayload temperature (some v) =
      (.ok r, st')) :
    v r.data = [] := by
  rw [llm_json_response] at h
  split at h
  · simp at h
  · dsimp only at h
    split at h
    · rename_i candidate heq hempty
      simp only [Prod.mk.injEq, Except.ok.injEq] at h
      obtain ⟨h1, -⟩ := h
      subst h1
      exact hempty
    · exact schema_repair_ok_of_validator parse resp dumpRepair agentId v _ _ _ _ _ _ _ h

/-- Witness for C2 at a concrete oracle whose first response parses and
passes the validator. -/
theorem acquirer_ok_satisfies_validator_witness :
    (fun j => match j with | Json.jobj [] => ([] : List String) | _ => ["bad"])
      (LLMResult.data ⟨Json.jobj [], 1, 2⟩) = [] :=
  acquirer_ok_satisfies_validator
    (fun s => if s = "ok" then some (Json.jobj []) else none)
    (fun _ => ("ok", 1, 2)) (fun _ _ => "d") "ag" "u" 0
    (fun j => match j with | Json.jobj [] => ([] : List String) | _ => ["bad"])
    ⟨Json.jobj [], 1, 2⟩
    ⟨1, 1, 2, [⟨systemPromptText, "u", 0, "ok"⟩]⟩
    rfl

end AgentDemo

namespace AgentDemo

/-! ### Claim C3 -/

/-- The shape-acquisition procedure transcribed from the claim's words
(not from the code): at most 3 attempts — attempt 1 sends the standard
system prompt at the caller's temperature, attempt 2 the same prompt at
temperature 0, attempt 3 a stricter one-JSON-object-only prompt at
temperature 0; after each attempt whose response does not parse, exactly
one additional temperature-0 repair call is issued before the attempt is
given up; the procedure stops at the first attempt yielding a parseable
JSON object. -/
def acquirer_shape_spec (parse : String → Option Json) (resp : Nat → String × Nat × Nat)
    (userPayload : String) (temperature : Rat) : Option Json × String × AcqState :=
  let a1 := trackedChat resp {} systemPromptText userPayload temperature
  match parse a1.1 with
  | some p => (some p, a1.1, a1.2)
  | none =>
    let f1 := trackedChat resp a1.2 repairSyntaxPromptText a1.1 0
    match parse f1.1 with
    | some p => (some p, f1.1, f1.2)
    | none =>
      let a2 := trackedChat resp f1.2 systemPromptText userPayload 0
      match parse a2.1 with
      | some p => (some p, a2.1, a2.2)
      | none =>
        let f2 := trackedChat resp a2.2 repairSyntaxPromptText a2.1 0
        match parse f2.1 with
        | some p => (some p, f2.1, f2.2)
        | none =>
          let a3 := trackedChat resp f2.2 strictRetryPromptText userPayload 0
          match parse a3.1 with
          | some p => (some p, a3.1, a3.2)
          | none =>
            let f3 := trackedChat resp a3.2 repairSyntaxPromptText a3.1 0
            match parse f3.1 with
            | some p => (some p, f3.1, f3.2)
            | none => (none, f3.1, f3.2)

/-- C3: the shape-acquisition loop follows exactly the claimed schedule
(refinement of `shape_acquire` against the claim-side transcription),
makes at most 6 gateway calls (3 attempts with at most one repair call
each), and when every attempt fails the Acquirer fails with the
not-valid-JSON message, which contains the 180-character preview of the
last raw text as a substring. -/
theorem trackedChat_calls_length (resp : Nat → String × Nat × Nat) (st : AcqState)
    (s u : String) (t : Rat) :
    ((trackedChat resp st s u t).2).calls.length = st.calls.length + 1 := by
  simp [trackedChat]

theorem shape_main_call_calls_length (resp : Nat → String × Nat × Nat)
    (u : String) (T : Rat) (st : AcqState) (a : Nat) :
    ((shape_main_call resp u T st a).2).calls.length = st.calls.length + 1 := by
  unfold shape_main_call
  split <;> simp [trackedChat]

theorem parse_candidate_text_calls_le (parse : String → Option Json)
    (resp : Nat → String × Nat × Nat) (st : AcqState) (text : String) :
    ((parse_candidate_text parse resp st text).2.2).calls.length ≤ st.calls.length + 1 := by
  unfold parse_candidate_text
  split
  · simp
  · split <;> simp [trackedChat]

theorem shape_loop_calls_le (parse : String → Option Json)
    (resp : Nat → String × Nat × Nat) (u : String) (T : Rat) :
    ∀ (attempts : List Nat) (last : String) (st : AcqState),
      ((shape_loop parse resp u T attempts last st).2.2).calls.length ≤
        st.calls.length + 2 * attempts.length := by
  intro attempts
  induction attempts with
  | nil => intro last st; simp [shape_loop]
  | cons a rest ih =>
    intro last st
    rw [shape_loop]
    split
    · rename_i p raw st2 heq
      have h1 := parse_candidate_text_calls_le parse resp
        (shape_main_call resp u T st a).2 (shape_main_call resp u T st a).1
      rw [heq] at h1
      have h2 := shape_main_call_calls_length resp u T st a
      simp only [List.length_cons] at *
      omega
    · rename_i raw st2 heq
      have h1 := parse_candidate_text_calls_le parse resp
        (shape_main_call resp u T st a).2 (shape_main_call resp u T st a).1
      rw [heq] at h1
      have h2 := shape_main_call_calls_length resp u T st a
      have h3 := ih raw st2
      simp only [List.length_cons] at *
      omega

/-- C3: the shape-acquisition loop follows exactly the claimed schedule
(refinement of `shape_acquire` against the claim-side transcription),
makes at most 6 gateway calls (3 attempts with at most one repair call
each), and when every attempt fails the Acquirer fails with the
not-valid-JSON message, which contains the 180-character preview of the
last raw text as a substring. -/
theorem shape_acquisition_schedule (parse : String → Option Json)
    (resp : Nat → String × Nat × Nat) (dumpRepair : List String → Json → String)
    (agentId userPayload : String) (temperature : Rat)
    (validator : Option (Json → List String)) :
    shape_acquire parse resp userPayload temperature =
      acquirer_shape_spec parse resp userPayload temperature ∧
    (shape_acquire parse resp userPayload temperature).2.2.calls.length ≤ 6 ∧
    (∀ last st, shape_acquire parse resp userPayload temperature = (none, last, st) →
      (llm_json_response parse resp dumpRepair agentId userPayload temperature validator).1 =
        .error (notJsonMsg agentId last) ∧
      ∃ pre post, (notJsonMsg agentId last).data =
        pre ++ (previewOf last).data ++ post) := by
  refine ⟨?_, ?_, ?_⟩
  · simp only [shape_acquire, acquirer_shape_spec, shape_loop, parse_candidate_text,
      shape_main_call, trackedChat]
    norm_num
    cases h1 : parse (resp 0).1 with
    | some p => simp [h1]
    | none =>
      simp only [h1]
      cases h2 : parse (resp 1).1 with
      | some p => simp [h2]
      | none =>
        simp only [h2]
        cases h3 : parse (resp 2).1 with
        | some p => simp [h3]
        | none =>
          simp only [h3]
          cases h4 : parse (resp 3).1 with
          | some p => simp [h4]
          | none =>
            simp only [h4]
            cases h5 : parse (resp 4).1 with
            | some p => simp [h5]
            | none =>
              simp only [h5]
              cases h6 : parse (resp 5).1 with
              | some p => simp [h6]
              | none => simp [h6]
  · have := shape_loop_calls_le parse resp userPayload temperature [1, 2, 3] "" {}
    simpa [shape_acquire] using this
  · intro last st h
    constructor
    · rw [llm_json_response, h]
    · refine ⟨(agentId ++ ": model output was not valid JSON (preview: ").data, ")".data, ?_⟩
      rw [notJsonMsg]
      rw [show agentId ++ ": model output was not valid JSON (preview: " ++ previewOf last ++ ")" =
        (agentId ++ ": model output was not valid JSON (preview: ") ++ previewOf last ++ ")" by
          simp [String.append_assoc]]
      simp [String.data_append]

/-- Witness for C3 at an oracle whose responses never parse: the call
fails with the message carrying the preview of the final repair text. -/
theorem shape_acquisition_schedule_witness :
    (llm_json_response (fun _ => none) (fun _ => ("x", 0, 0)) (fun _ _ => "d")
        "ag" "u" 5 none).1 = .error (notJsonMsg "ag" "x") ∧
    ∃ pre post, (notJsonMsg "ag" "x").data = pre ++ (previewOf "x").data ++ post :=
  (shape_acquisition_schedule (fun _ => none) (fun _ => ("x", 0, 0)) (fun _ _ => "d")
      "ag" "u" 5 none).2.2 "x"
    ⟨6, 0, 0,
      [⟨systemPromptText, "u", 5, "x"⟩, ⟨repairSyntaxPromptText, "x", 0, "x"⟩,
       ⟨systemPromptText, "u", 0, "x"⟩, ⟨repairSyntaxPromptText, "x", 0, "x"⟩,
       ⟨strictRetryPromptText, "u", 0, "x"⟩, ⟨repairSyntaxPromptText, "x", 0, "x"⟩]⟩
    rfl

end AgentDemo

namespace AgentDemo

/-! ### Claim C8 -/

/-- C8 as stated is false: the terminal schema-failure message is built
from the error list of the **last** candidate the validator rejected, not
from the original list `E`.  Here the first candidate fails with
`E = ["errA"]`, every repair round produces a candidate failing with
`["errB"]`, all 3 repair attempts fail to produce a passing candidate,
and the terminal message quotes `errB` but contains no error string from
`E`. -/
theorem schema_repair_message_counterexample :
    (fun j => match j with
      | Json.jstr "a" => ["errA"] | Json.jstr "b" => ["errB"] | _ => ["errC"])
      (Json.jstr "a") = ["errA"] ∧
    (llm_json_response
        (fun s => if s = "r0" then some (.jstr "a")
                  else if s = "r1" then some (.jstr "b") else none)
        (fun n => if n = 0 then ("r0", 0, 0) else ("r1", 0, 0))
        (fun _ _ => "d") "ag" "u" 0
        (some (fun j => match j with
          | Json.jstr "a" => ["errA"] | Json.jstr "b" => ["errB"] | _ => ["errC"]))).1 =
      .error "ag: model output failed schema validation (errB) (preview: r1)" ∧
    ¬ ∃ pre post,
      ("ag: model output failed schema validation (errB) (preview: r1)").data =
        pre ++ "errA".data ++ post := by
  refine ⟨rfl, rfl, not_decomp_of_charsInfixOf_false (by decide)⟩

theorem schemaFailMsg_data_decomp (agentId last : String) (errors : List String)
    (hne : errors ≠ []) :
    ∃ e, e ∈ errors ∧ ∃ pre post,
      (schemaFailMsg agentId errors last).data = pre ++ e.data ++ post := by
  obtain ⟨e, rest, rfl⟩ := List.exists_cons_of_ne_nil hne
  refine ⟨e, List.mem_cons_self e rest, ?_⟩
  have htake : (e :: rest).take 3 = e :: rest.take 2 := rfl
  have hsuffix : ∃ suffix : String, joinWith "; " (e :: rest.take 2) = e ++ suffix := by
    cases h : rest.take 2 with
    | nil => exact ⟨"", by simp [joinWith]⟩
    | cons y ys =>
      exact ⟨"; " ++ joinWith "; " (y :: ys), by simp [joinWith, String.append_assoc]⟩
  obtain ⟨suffix, hs⟩ := hsuffix
  refine ⟨(agentId ++ ": model output failed schema validation (").data,
    suffix.data ++ (") (preview: " ++ previewOf last ++ ")").data, ?_⟩
  rw [schemaFailMsg, htake, hs]
  simp [String.data_append, List.append_assoc]

/-- C8 amended: when the candidate fails the validator and 3 repair
attempts fail to produce a validator-passing candidate, the call fails
with a message quoting at least one error string from the validator's
**final** failing error list — the entering list only when no repair
round replaced it (the original `E` is not quoted in general, see the
counterexample). -/
theorem schema_repair_failure_quotes_last_errors (parse : String → Option Json)
    (resp : Nat → String × Nat × Nat) (dumpRepair : List String → Json → String)
    (agentId : String) (v : Json → List String) :
    ∀ (n : Nat) (current : Json) (errors : List String) (last : String)
      (st : AcqState) (msg : String) (st' : AcqState),
      errors ≠ [] →
      schema_repair parse resp dumpRepair agentId v n current errors last st =
        (.error msg, st') →
      ∃ finalErrs lastTxt, finalErrs ≠ [] ∧
        (finalErrs = errors ∨ ∃ cand, finalErrs = v cand) ∧
        msg = schemaFailMsg agentId finalErrs lastTxt ∧
        ∃ e, e ∈ finalErrs ∧ ∃ pre post, msg.data = pre ++ e.data ++ post := by
  intro n
  induction n with
  | zero =>
    intro current errors last st msg st' hne h
    simp only [schema_repair, Prod.mk.injEq, Except.error.injEq] at h
    obtain ⟨h1, -⟩ := h
    subst h1
    exact ⟨errors, last, hne, Or.inl rfl, rfl, schemaFailMsg_data_decomp agentId last errors hne⟩
  | succ n ih =>
    intro current errors last st msg st' hne h
    rw [schema_repair] at h
    split at h
    · exact ih _ _ _ _ _ _ hne h
    · split at h
      · simp at h
      · rename_i repaired heq hnonempty
        obtain ⟨finalErrs, lastTxt, hfne, hprov, hmsg, hquote⟩ :=
          ih _ _ _ _ _ _ hnonempty h
        refine ⟨finalErrs, lastTxt, hfne, ?_, hmsg, hquote⟩
        rcases hprov with h2 | ⟨cand, h2⟩
        · exact Or.inr ⟨repaired, h2⟩
        · exact Or.inr ⟨cand, h2⟩

/-- Witness for the amended C8 at attempt budget 0 (loop exhausted). -/
theorem schema_repair_failure_quotes_last_errors_witness :
    ∃ finalErrs lastTxt, finalErrs ≠ [] ∧
      (finalErrs = ["e1"] ∨ ∃ cand, finalErrs = (fun _ : Json => ["e1"]) cand) ∧
      schemaFailMsg "ag" ["e1"] "L" = schemaFailMsg "ag" finalErrs lastTxt ∧
      ∃ e, e ∈ finalErrs ∧ ∃ pre post,
        (schemaFailMsg "ag" ["e1"] "L").data = pre ++ e.data ++ post :=
  schema_repair_failure_quotes_last_errors (fun _ => none) (fun _ => ("t", 0, 0))
    (fun _ _ => "d") "ag" (fun _ => ["e1"]) 0 Json.jnull ["e1"] "L" {}
    (schemaFailMsg "ag" ["e1"] "L") {} (by simp) rfl

end AgentDemo

namespace AgentDemo

/-! ## `EventEmitter` (`api/services/agent_runtime.py`)

The emitter instance fields (`total_cost`, `total_raw_cost`,
`total_input_tokens`, `total_output_tokens`, the per-agent multiplier)
are bundled with the world it writes to: the session registry
(`session_manager.append_event`) and the durable `activity_logs` table
(modelled as a row list).  `json.dumps` (`safe_json`) is abstracted as
the `safeJson` parameter. -/

/-- Pricing per token (Claude 3.7 Sonnet on OpenRouter). -/
def INPUT_TOKEN_PRICE : Rat := 3 / 1000000

def OUTPUT_TOKEN_PRICE : Rat := 15 / 1000000

/-- `estimate_tokens`: fallback estimation for non-LLM events.
`int(len(message) / 3.8)` is modelled as exact rational truncation
`(len * 10) / 38` (floor); likewise for the payload text. -/
def estimate_tokens (safeJson : Json → String) (message : String) (payload : Json) :
    Nat × Nat × Rat :=
  let payload_text := safeJson payload
  let input_tokens := max 24 ((message.length * 10) / 38)
  let output_tokens := max 18 ((payload_text.length * 10) / 44)
  let cost := pyRound ((input_tokens : Rat) * INPUT_TOKEN_PRICE +
    (output_tokens : Rat) * OUTPUT_TOKEN_PRICE) 6
  (input_tokens, output_tokens, cost)

/-- One row of the durable `activity_logs` table. -/
structure ActivityRow where
  agent_id : String
  session_id : String
  event_type : String
  message : String
  cost : Rat
  input_tokens : Nat
  output_tokens : Nat

/-- An `EventEmitter` instance together with the state it mutates. -/
structure EmitCtx where
  agent_id : String
  session_id : String
  multiplier : Rat
  total_cost : Rat := 0
  total_raw_cost : Rat := 0
  total_input_tokens : Nat := 0
  total_output_tokens : Nat := 0
  reg : Registry := []
  log : List ActivityRow := []

/-- `EventEmitter._persist`: append the event to the session's in-memory
log and insert one durable activity row. -/
def emitter_persist (ctx : EmitCtx) (event_type : String) (payload : Json)
    (message : String) (cost : Rat) (input_tokens output_tokens : Nat) : EmitCtx :=
  { ctx with
    reg := append_event ctx.reg ctx.session_id ⟨event_type, payload⟩,
    log := ctx.log ++
      [⟨ctx.agent_id, ctx.session_id, event_type, message, cost, input_tokens, output_tokens⟩] }

/-- `EventEmitter.emit`: estimate tokens/cost from the message and
payload text, apply the per-agent multiplier, accumulate the running
totals, then persist. -/
def emitter_emit (safeJson : Json → String) (ctx : EmitCtx) (event_type : String)
    (payload : Json) (message : String) : EmitCtx :=
  let e := estimate_tokens safeJson message payload
  let projected := pyRound (e.2.2 * ctx.multiplier) 6
  emitter_persist
    { ctx with
      total_raw_cost := ctx.total_raw_cost + e.2.2,
      total_cost := ctx.total_cost + projected,
      total_input_tokens := ctx.total_input_tokens + e.1,
      total_output_tokens := ctx.total_output_tokens + e.2.1 }
    event_type payload message projected e.1 e.2.1

/-- `EventEmitter.emit_llm`: emit with real token counts from the LLM
API. -/
def emitter_emit_llm (ctx : EmitCtx) (event_type : String) (payload : Json)
    (message : String) (prompt_tokens completion_tokens : Nat) : EmitCtx :=
  let raw_cost := pyRound ((prompt_tokens : Rat) * INPUT_TOKEN_PRICE +
    (completion_tokens : Rat) * OUTPUT_TOKEN_PRICE) 6
  let projected := pyRound (raw_cost * ctx.multiplier) 6
  emitter_persist
    { ctx with
      total_raw_cost := ctx.total_raw_cost + raw_cost,
      total_cost := ctx.total_cost + projected,
      total_input_tokens := ctx.total_input_tokens + prompt_tokens,
      total_output_tokens := ctx.total_output_tokens + completion_tokens }
    event_type payload message projected prompt_tokens completion_tokens

/-- `EventEmitter.emit_thinking`: streams to the session only — no DB
persist, no token cost. -/
def emitter_emit_thinking (ctx : EmitCtx) (text : String) : EmitCtx :=
  { ctx with
    reg := append_event ctx.reg ctx.session_id
      ⟨"thinking", Json.jobj [("text", Json.jstr text)]⟩ }

/-- One call in a sequence of emitter invocations. -/
inductive EmitCall where
  | emitE (event_type : String) (payload : Json) (message : String)
  | emitLlm (event_type : String) (payload : Json) (message : String)
      (prompt_tokens completion_tokens : Nat)
  | thinking (text : String)

def applyEmit (safeJson : Json → String) (ctx : EmitCtx) : EmitCall → EmitCtx
  | .emitE t p m => emitter_emit safeJson ctx t p m
  | .emitLlm t p m pt ct => emitter_emit_llm ctx t p m pt ct
  | .thinking txt => emitter_emit_thinking ctx txt

/-- The per-call input-token count of the claim: supplied by the caller
for `emit_llm`, estimated from text length for `emit`. -/
def callInput (safeJson : Json → String) : EmitCall → Nat
  | .emitE _ p m => (estimate_tokens safeJson m p).1
  | .emitLlm _ _ _ pt _ => pt
  | .thinking _ => 0

def callOutput (safeJson : Json → String) : EmitCall → Nat
  | .emitE _ p m => (estimate_tokens safeJson m p).2.1
  | .emitLlm _ _ _ _ ct => ct
  | .thinking _ => 0

/-- The per-call raw cost (before the per-agent multiplier). -/
def callRawCost (safeJson : Json → String) : EmitCall → Rat
  | .emitE _ p m => (estimate_tokens safeJson m p).2.2
  | .emitLlm _ _ _ pt ct => pyRound ((pt : Rat) * INPUT_TOKEN_PRICE +
      (ct : Rat) * OUTPUT_TOKEN_PRICE) 6
  | .thinking _ => 0

/-- Does the call write a durable activity row? (`emit_thinking` does
not.) -/
def callDurable : EmitCall → Bool
  | .thinking _ => false
  | _ => true

/-- A freshly constructed emitter (`EventEmitter.__init__`) for one
session and agent, with zeroed totals, writing to an empty world. -/
def initEmitCtx (aid sid : String) (mult : Rat) : EmitCtx :=
  { agent_id := aid, session_id := sid, multiplier := mult }

theorem pyRound_zero (n : Nat) : pyRound 0 n = 0 := by
  simp [pyRound]

theorem applyEmit_fields (safeJson : Json → String) (ctx : EmitCtx) (c : EmitCall) :
    (applyEmit safeJson ctx c).total_input_tokens =
      ctx.total_input_tokens + callInput safeJson c ∧
    (applyEmit safeJson ctx c).total_output_tokens =
      ctx.total_output_tokens + callOutput safeJson c ∧
    (applyEmit safeJson ctx c).total_raw_cost =
      ctx.total_raw_cost + callRawCost safeJson c ∧
    (applyEmit safeJson ctx c).total_cost =
      ctx.total_cost + pyRound (callRawCost safeJson c * ctx.multiplier) 6 ∧
    (applyEmit safeJson ctx c).log.length =
      ctx.log.length + (if callDurable c then 1 else 0) ∧
    (applyEmit safeJson ctx c).multiplier = ctx.multiplier := by
  cases c with
  | emitE t p m =>
    simp [applyEmit, emitter_emit, emitter_persist, callInput, callOutput, callRawCost,
      callDurable, pyRound]
  | emitLlm t p m pt ct =>
    simp [applyEmit, emitter_emit_llm, emitter_persist, callInput, callOutput, callRawCost,
      callDurable, pyRound]
  | thinking txt =>
    simp [applyEmit, emitter_emit_thinking, callInput, callOutput, callRawCost, callDurable,
      pyRound_zero]

/-! ### Claim C7 -/

/-- C7: over any sequence of `emit`/`emit_llm`/`emit_thinking` calls, the
accumulated token totals equal the sums of the per-call counts (supplied
for `emit_llm`, estimated for `emit`), `total_cost` equals the sum of the
per-call costs each multiplied by the configured per-agent multiplier and
rounded as the code rounds, `total_raw_cost` the un-multiplied sum, the
durable activity log gains exactly one row per non-thinking call, and a
`thinking` call changes no total and writes no activity row. -/
theorem emitter_token_accounting (safeJson : Json → String) (aid sid : String)
    (mult : Rat) (calls : List EmitCall) :
    ((calls.foldl (applyEmit safeJson) (initEmitCtx aid sid mult)).total_input_tokens =
      (calls.map (callInput safeJson)).sum ∧
    (calls.foldl (applyEmit safeJson) (initEmitCtx aid sid mult)).total_output_tokens =
      (calls.map (callOutput safeJson)).sum ∧
    (calls.foldl (applyEmit safeJson) (initEmitCtx aid sid mult)).total_raw_cost =
      (calls.map (callRawCost safeJson)).sum ∧
    (calls.foldl (applyEmit safeJson) (initEmitCtx aid sid mult)).total_cost =
      (calls.map (fun c => pyRound (callRawCost safeJson c * mult) 6)).sum ∧
    (calls.foldl (applyEmit safeJson) (initEmitCtx aid sid mult)).log.length =
      (calls.filter callDurable).length) ∧
    (∀ (ctx : EmitCtx) (text : String),
      (emitter_emit_thinking ctx text).total_cost = ctx.total_cost ∧
      (emitter_emit_thinking ctx text).total_raw_cost = ctx.total_raw_cost ∧
      (emitter_emit_thinking ctx text).total_input_tokens = ctx.total_input_tokens ∧
      (emitter_emit_thinking ctx text).total_output_tokens = ctx.total_output_tokens ∧
      (emitter_emit_thinking ctx text).log = ctx.log) := by
  constructor
  · have key : ∀ (cs : List EmitCall) (ctx : EmitCtx),
        (cs.foldl (applyEmit safeJson) ctx).total_input_tokens =
          ctx.total_input_tokens + (cs.map (callInput safeJson)).sum ∧
        (cs.foldl (applyEmit safeJson) ctx).total_output_tokens =
          ctx.total_output_tokens + (cs.map (callOutput safeJson)).sum ∧
        (cs.foldl (applyEmit safeJson) ctx).total_raw_cost =
          ctx.total_raw_cost + (cs.map (callRawCost safeJson)).sum ∧
        (cs.foldl (applyEmit safeJson) ctx).total_cost =
          ctx.total_cost +
            (cs.map (fun c => pyRound (callRawCost safeJson c * ctx.multiplier) 6)).sum ∧
        (cs.foldl (applyEmit safeJson) ctx).log.length =
          ctx.log.length + (cs.filter callDurable).length ∧
        (cs.foldl (applyEmit safeJson) ctx).multiplier = ctx.multiplier := by
      intro cs
      induction cs with
      | nil => intro ctx; simp
      | cons c rest ih =>
        intro ctx
        obtain ⟨f1, f2, f3, f4, f5, f6⟩ := applyEmit_fields safeJson ctx c
        obtain ⟨g1, g2, g3, g4, g5, g6⟩ := ih (applyEmit safeJson ctx c)
        refine ⟨?_, ?_, ?_, ?_, ?_, ?_⟩
        · simp only [List.foldl_cons, g1, f1, List.map_cons, List.sum_cons]; ring
        · simp only [List.foldl_cons, g2, f2, List.map_cons, List.sum_cons]; ring
        · simp only [List.foldl_cons, g3, f3, List.map_cons, List.sum_cons]; ring
        · simp only [List.foldl_cons, g4, f4, List.map_cons, List.sum_cons, f6]; ring
        · simp only [List.foldl_cons, g5, f5, List.filter_cons]
          cases h : callDurable c <;> simp [h] <;> omega
        · simp only [List.foldl_cons, g6, f6]
    obtain ⟨k1, k2, k3, k4, k5, k6⟩ := key calls (initEmitCtx aid sid mult)
    exact ⟨by simpa [initEmitCtx] using k1, by simpa [initEmitCtx] using k2,
      by simpa [initEmitCtx] using k3, by simpa [initEmitCtx] using k4,
      by simpa [initEmitCtx] using k5⟩
  · intro ctx text
    simp [emitter_emit_thinking]

end AgentDemo

namespace AgentDemo

/-! ## `run_agent_session` (`api/services/agent_runtime.py`) and the
route handler `run_agent.execute` (`api/routes/agents.py`)

The per-session registry effects of one agent run are modelled as a list
of registry operations.  A session is created by the route before the
run, so the evolution of that one session is tracked by applying the
found-session branches of `append_event` / `mark_done` (the bridging
lemmas below connect them to the registry functions).  The runner body is
abstracted as the list of events it emits through the emitter before it
returns or raises, plus its outcome; the `complete` event's metrics dict
is carried opaquely. -/

/-- The found-session effect of `append_event`. -/
def sessionAppend (st : SessionState) (event : Event) : SessionState :=
  let st1 := { st with events := st.events ++ [event] }
  if event.etype = "complete" then
    { st1 with done := true, latest_output := event.payload.getOpt "output" }
  else st1

/-- The found-session effect of `mark_done`. -/
def sessionMarkDone (st : SessionState) (output : Option Json) : SessionState :=
  let st1 := { st with done := true }
  match output with
  | some out => { st1 with latest_output := some out }
  | none => st1

theorem append_event_found (reg : Registry) (sid : String) (ev : Event)
    (st : SessionState) (h : reg.lookup sid = some st) :
    append_event reg sid ev = reg.update sid (sessionAppend st ev) := by
  unfold append_event sessionAppend
  rw [h]

theorem mark_done_found (reg : Registry) (sid : String) (output : Option Json)
    (st : SessionState) (h : reg.lookup sid = some st) :
    mark_done reg sid output = reg.update sid (sessionMarkDone st output) := by
  unfold mark_done sessionMarkDone
  rw [h]

/-- One registry operation issued against the run's session. -/
inductive RegOp where
  | append (ev : Event)
  | markDone (out : Option Json)

def applyOp (st : SessionState) : RegOp → SessionState
  | .append ev => sessionAppend st ev
  | .markDone out => sessionMarkDone st out

/-- The outcome of the runner body: a structured output, or a raised
exception message. -/
inductive RunnerOutcome where
  | ok (output : Json)
  | fail (msg : String)

def errorEvent (msg : String) : Event :=
  ⟨"error", Json.jobj [("message", Json.jstr msg)]⟩

def errorOutput (msg : String) : Json :=
  Json.jobj [("error", Json.jstr msg)]

/-- Payload of the terminal `complete` event
(`{"agent_id": ..., "output": ..., "metrics": ...}`). -/
def completePayload (aid : String) (output metrics : Json) : Json :=
  Json.jobj [("agent_id", Json.jstr aid), ("output", output), ("metrics", metrics)]

/-- The message raised before the run starts (unknown agent id, or the
LLM gate disabled) — both checks precede the emitter's construction. -/
def preStartMsg (aid : String) (agentKnown : Bool) : String :=
  if agentKnown = false then "Unknown agent id: " ++ aid
  else "Model-only runtime requires USE_REAL_LLM=true and OPENROUTER_API_KEY configured."

/-- The sequence of registry operations one execution performs against
its session: on a pre-start failure, the route's handler appends one
error event and marks done; on success, the runner's events, then the
`complete` event (whose append itself sets `done`), then `mark_done`; on
a runner failure, the runner's events, then `run_agent_session`'s except
block (error event + `mark_done`), then — because the exception is
re-raised — the route handler's except block appends a second error
event and marks done again. -/
def runSessionOps (aid : String) (metrics : Json) (agentKnown llmOn : Bool)
    (emits : List Event) (outcome : RunnerOutcome) : List RegOp :=
  if agentKnown = false ∨ llmOn = false then
    [.append (errorEvent (preStartMsg aid agentKnown)),
     .markDone (some (errorOutput (preStartMsg aid agentKnown)))]
  else
    match outcome with
    | .ok output =>
      (emits.map RegOp.append) ++
        [.append ⟨"complete", completePayload aid output metrics⟩,
         .markDone (some output)]
    | .fail msg =>
      (emits.map RegOp.append) ++
        [.append (errorEvent msg), .markDone (some (errorOutput msg)),
         .append (errorEvent msg), .markDone (some (errorOutput msg))]

/-- The session as created by `SessionManager.create`. -/
def freshSession (sid aid : String) : SessionState :=
  { session_id := sid, agent_id := aid }

def isTerminalEvent (e : Event) : Bool :=
  e.etype == "complete" || e.etype == "error"

def countTerminal (evs : List Event) : Nat :=
  (evs.filter isTerminalEvent).length

/-- The session state after the first `k` registry operations. -/
def stateAfter (sid aid : String) (ops : List RegOp) (k : Nat) : SessionState :=
  (ops.take k).foldl applyOp (freshSession sid aid)

theorem sessionAppend_events (st : SessionState) (ev : Event) :
    (sessionAppend st ev).events = st.events ++ [ev] := by
  unfold sessionAppend
  split <;> rfl

theorem sessionMarkDone_events (st : SessionState) (output : Option Json) :
    (sessionMarkDone st output).events = st.events := by
  unfold sessionMarkDone
  cases output <;> rfl

theorem sessionAppend_done_of_not_complete (st : SessionState) (ev : Event)
    (h : ¬ ev.etype = "complete") : (sessionAppend st ev).done = st.done := by
  unfold sessionAppend
  rw [if_neg h]

theorem foldl_append_nonterminal (emits : List Event) :
    ∀ (st : SessionState), (∀ e ∈ emits, isTerminalEvent e = false) →
      ((emits.map RegOp.append).foldl applyOp st).events = st.events ++ emits ∧
      ((emits.map RegOp.append).foldl applyOp st).done = st.done := by
  induction emits with
  | nil => intro st _; simp
  | cons e rest ih =>
    intro st h
    have he : isTerminalEvent e = false := h e (List.mem_cons_self e rest)
    have hcomp : ¬ e.etype = "complete" := by
      intro hc
      simp [isTerminalEvent, hc] at he
    obtain ⟨ih1, ih2⟩ := ih (applyOp st (.append e))
      (fun x hx => h x (List.mem_cons_of_mem e hx))
    constructor
    · rw [List.map_cons, List.foldl_cons, ih1]
      show (applyOp st (.append e)).events ++ rest = st.events ++ e :: rest
      simp [applyOp, sessionAppend_events]
    · rw [List.map_cons, List.foldl_cons, ih2]
      show (applyOp st (.append e)).done = st.done
      simpa [applyOp] using sessionAppend_done_of_not_complete st e hcomp

theorem sessionMarkDone_done (st : SessionState) (output : Option Json) :
    (sessionMarkDone st output).done = true := by
  unfold sessionMarkDone
  cases output <;> rfl

theorem sessionAppend_complete_done (st : SessionState) (ev : Event)
    (h : ev.etype = "complete") : (sessionAppend st ev).done = true := by
  unfold sessionAppend
  rw [if_pos h]

theorem countTerminal_nonterminal (evs : List Event)
    (h : ∀ e ∈ evs, isTerminalEvent e = false) : countTerminal evs = 0 := by
  unfold countTerminal
  rw [List.filter_eq_nil_iff.mpr (fun e he => by simp [h e he])]
  rfl

end AgentDemo

namespace AgentDemo

/-! ### Claim C1 -/

/-- C1 as stated is false on the code: when the runner raises after the
run has started, `run_agent_session`'s except block appends an `error`
event (and re-raises) and then the route handler's except block appends a
**second** `error` event, so two terminal events appear; moreover the
first error append leaves `done` false — `done` only becomes true at the
following `mark_done` call.  Evaluated here on a run that fails
immediately with message `boom`. -/
theorem run_session_two_error_events :
    countTerminal
      ((runSessionOps "po_match" Json.jnull true true [] (.fail "boom")).foldl
        applyOp (freshSession "s1" "po_match")).events = 2 ∧
    (stateAfter "s1" "po_match"
        (runSessionOps "po_match" Json.jnull true true [] (.fail "boom")) 1).events =
      [errorEvent "boom"] ∧
    (stateAfter "s1" "po_match"
        (runSessionOps "po_match" Json.jnull true true [] (.fail "boom")) 1).done = false :=
  ⟨rfl, rfl, rfl⟩

/-- C1 amended: the event list of a run's session is append-only (every
registry operation extends it).  On success, exactly one terminal event
(`complete`) appears, it is the last event, and `done` becomes true
exactly at its append.  On a runner failure after the run started, no
`complete` event appears but **two** `error` events do (one from the
runtime's handler, one from the route's handler), the last event is an
`error`, and `done` becomes true only at the `mark_done` call following
the first error append — not at the append itself.  On a pre-start
failure a single `error` event appears, and `done` again becomes true at
the following `mark_done` call. -/
theorem run_session_terminal_event_lifecycle (sid aid msg : String)
    (metrics output : Json) (emits : List Event)
    (hNT : ∀ e ∈ emits, isTerminalEvent e = false) :
    (∀ (st : SessionState) (op : RegOp), st.events <+: (applyOp st op).events) ∧
    (((runSessionOps aid metrics true true emits (.ok output)).foldl applyOp
        (freshSession sid aid)).events =
      emits ++ [⟨"complete", completePayload aid output metrics⟩] ∧
     countTerminal ((runSessionOps aid metrics true true emits (.ok output)).foldl applyOp
        (freshSession sid aid)).events = 1 ∧
     ((runSessionOps aid metrics true true emits (.ok output)).foldl applyOp
        (freshSession sid aid)).done = true ∧
     (∀ k ≤ emits.length,
       (stateAfter sid aid (runSessionOps aid metrics true true emits (.ok output)) k).done =
         false) ∧
     (stateAfter sid aid (runSessionOps aid metrics true true emits (.ok output))
        (emits.length + 1)).done = true) ∧
    (((runSessionOps aid metrics true true emits (.fail msg)).foldl applyOp
        (freshSession sid aid)).events =
      emits ++ [errorEvent msg, errorEvent msg] ∧
     countTerminal ((runSessionOps aid metrics true true emits (.fail msg)).foldl applyOp
        (freshSession sid aid)).events = 2 ∧
     ((runSessionOps aid metrics true true emits (.fail msg)).foldl applyOp
        (freshSession sid aid)).done = true ∧
     (∀ k ≤ emits.length,
       (stateAfter sid aid (runSessionOps aid metrics true true emits (.fail msg)) k).done =
         false) ∧
     (stateAfter sid aid (runSessionOps aid metrics true true emits (.fail msg))
        (emits.length + 1)).done = false ∧
     (stateAfter sid aid (runSessionOps aid metrics true true emits (.fail msg))
        (emits.length + 2)).done = true) ∧
    (∀ (agentKnown llmOn : Bool), agentKnown = false ∨ llmOn = false →
      ((runSessionOps aid metrics agentKnown llmOn emits (.fail msg)).foldl applyOp
          (freshSession sid aid)).events = [errorEvent (preStartMsg aid agentKnown)] ∧
      countTerminal ((runSessionOps aid metrics agentKnown llmOn emits (.fail msg)).foldl
          applyOp (freshSession sid aid)).events = 1 ∧
      (stateAfter sid aid (runSessionOps aid metrics agentKnown llmOn emits (.fail msg))
          1).done = false ∧
      (stateAfter sid aid (runSessionOps aid metrics agentKnown llmOn emits (.fail msg))
          2).done = true) := by
  have hbase := foldl_append_nonterminal emits (freshSession sid aid) hNT
  obtain ⟨hbe, hbd⟩ := hbase
  have hfreshe : (freshSession sid aid).events = [] := rfl
  have hfreshd : (freshSession sid aid).done = false := rfl
  rw [hfreshe, List.nil_append] at hbe
  rw [hfreshd] at hbd
  have hok : runSessionOps aid metrics true true emits (.ok output) =
      (emits.map RegOp.append) ++
        [.append ⟨"complete", completePayload aid output metrics⟩,
         .markDone (some output)] := by
    simp [runSessionOps]
  have hfail : runSessionOps aid metrics true true emits (.fail msg) =
      (emits.map RegOp.append) ++
        [.append (errorEvent msg), .markDone (some (errorOutput msg)),
         .append (errorEvent msg), .markDone (some (errorOutput msg))] := by
    simp [runSessionOps]
  have htake : ∀ (k : Nat), k ≤ emits.length → ∀ (tail : List RegOp),
      (((emits.map RegOp.append) ++ tail).take k).foldl applyOp (freshSession sid aid) =
        ((emits.take k).map RegOp.append).foldl applyOp (freshSession sid aid) := by
    intro k hk tail
    rw [List.take_append_of_le_length (by simpa using hk), List.map_take]
  have hdone_take : ∀ (k : Nat), k ≤ emits.length →
      (((emits.take k).map RegOp.append).foldl applyOp (freshSession sid aid)).done =
        false := by
    intro k hk
    have := (foldl_append_nonterminal (emits.take k) (freshSession sid aid)
      (fun e he => hNT e (List.take_subset k emits he))).2
    rw [this, hfreshd]
  have htake1 : ∀ (tail : List RegOp),
      ((emits.map RegOp.append) ++ tail).take (emits.length + 1) =
        (emits.map RegOp.append) ++ tail.take 1 := by
    intro tail
    rw [List.take_append_eq_append_take]
    congr 1
    · exact List.take_of_length_le (by simp)
    · congr 1
      simp
  have htake2 : ∀ (tail : List RegOp),
      ((emits.map RegOp.append) ++ tail).take (emits.length + 2) =
        (emits.map RegOp.append) ++ tail.take 2 := by
    intro tail
    rw [List.take_append_eq_append_take]
    congr 1
    · exact List.take_of_length_le (by simp)
    · congr 1
      simp
  refine ⟨?_, ⟨?_, ?_, ?_, ?_, ?_⟩, ⟨?_, ?_, ?_, ?_, ?_, ?_⟩, ?_⟩
  · intro st op
    cases op with
    | append ev =>
      show st.events <+: (sessionAppend st ev).events
      rw [sessionAppend_events]
      exact List.prefix_append _ _
    | markDone out =>
      show st.events <+: (sessionMarkDone st out).events
      rw [sessionMarkDone_events]
  · rw [hok, List.foldl_append]
    simp only [List.foldl_cons, List.foldl_nil, applyOp]
    rw [sessionMarkDone_events, sessionAppend_events, hbe]
  · rw [hok, List.foldl_append]
    simp only [List.foldl_cons, List.foldl_nil, applyOp]
    rw [sessionMarkDone_events, sessionAppend_events, hbe]
    unfold countTerminal
    rw [List.filter_append,
      List.filter_eq_nil_iff.mpr (fun e he => by simp [hNT e he])]
    rfl
  · rw [hok, List.foldl_append]
    simp only [List.foldl_cons, List.foldl_nil, applyOp]
    exact sessionMarkDone_done _ _
  · intro k hk
    unfold stateAfter
    rw [hok, htake k hk]
    exact hdone_take k hk
  · unfold stateAfter
    rw [hok, htake1]
    rw [List.foldl_append]
    simp only [List.take_succ_cons, List.take_zero, List.foldl_cons, List.foldl_nil, applyOp]
    exact sessionAppend_complete_done _ _ rfl
  · rw [hfail, List.foldl_append]
    simp only [List.foldl_cons, List.foldl_nil, applyOp]
    rw [sessionMarkDone_events, sessionAppend_events, sessionMarkDone_events,
      sessionAppend_events, hbe]
    simp
  · rw [hfail, List.foldl_append]
    simp only [List.foldl_cons, List.foldl_nil, applyOp]
    rw [sessionMarkDone_events, sessionAppend_events, sessionMarkDone_events,
      sessionAppend_events, hbe]
    unfold countTerminal
    rw [show emits ++ [errorEvent msg] ++ [errorEvent msg] =
        emits ++ [errorEvent msg, errorEvent msg] by simp]
    rw [List.filter_append,
      List.filter_eq_nil_iff.mpr (fun e he => by simp [hNT e he])]
    rfl
  · rw [hfail, List.foldl_append]
    simp only [List.foldl_cons, List.foldl_nil, applyOp]
    exact sessionMarkDone_done _ _
  · intro k hk
    unfold stateAfter
    rw [hfail, htake k hk]
    exact hdone_take k hk
  · unfold stateAfter
    rw [hfail, htake1]
    rw [List.foldl_append]
    simp only [List.take_succ_cons, List.take_zero, List.foldl_cons, List.foldl_nil, applyOp]
    rw [sessionAppend_done_of_not_complete _ _ (by simp [errorEvent]), hbd]
  · unfold stateAfter
    rw [hfail, htake2]
    rw [List.foldl_append]
    simp only [List.take_succ_cons, List.take_zero, List.foldl_cons, List.foldl_nil, applyOp]
    exact sessionMarkDone_done _ _
  · intro agentKnown llmOn hpre
    have hops : runSessionOps aid metrics agentKnown llmOn emits (.fail msg) =
        [.append (errorEvent (preStartMsg aid agentKnown)),
         .markDone (some (errorOutput (preStartMsg aid agentKnown)))] := by
      unfold runSessionOps
      rw [if_pos hpre]
    refine ⟨?_, ?_, ?_, ?_⟩
    · rw [hops]
      simp only [List.foldl_cons, List.foldl_nil, applyOp]
      rw [sessionMarkDone_events, sessionAppend_events, hfreshe, List.nil_append]
    · rw [hops]
      simp only [List.foldl_cons, List.foldl_nil, applyOp]
      rw [sessionMarkDone_events, sessionAppend_events, hfreshe, List.nil_append]
      rfl
    · unfold stateAfter
      rw [hops]
      simp only [List.take_succ_cons, List.take_zero, List.foldl_cons, List.foldl_nil, applyOp]
      rw [sessionAppend_done_of_not_complete _ _ (by simp [errorEvent]), hfreshd]
    · unfold stateAfter
      rw [hops]
      simp only [List.take_succ_cons, List.take_zero, List.foldl_cons, List.foldl_nil, applyOp]
      exact sessionMarkDone_done _ _

/-- Witness for the amended C1 at a one-event runner. -/
theorem run_session_terminal_event_lifecycle_witness :
    ((runSessionOps "po_match" Json.jnull true true [⟨"reasoning", Json.jnull⟩]
        (.ok (Json.jobj []))).foldl applyOp (freshSession "s1" "po_match")).events =
      [⟨"reasoning", Json.jnull⟩] ++
        [⟨"complete", completePayload "po_match" (Json.jobj []) Json.jnull⟩] ∧
    countTerminal
      ((runSessionOps "po_match" Json.jnull true true [⟨"reasoning", Json.jnull⟩]
        (.fail "x")).foldl applyOp (freshSession "s1" "po_match")).events = 2 :=
  have h := run_session_terminal_event_lifecycle "s1" "po_match" "x" Json.jnull
    (Json.jobj []) [⟨"reasoning", Json.jnull⟩]
    (fun e he => by
      rw [List.mem_singleton] at he
      rw [he]
      rfl)
  ⟨h.2.1.1, h.2.2.1.2.1⟩

end AgentDemo

namespace AgentDemo

/-! ## The invoice-matching state machine (`run_po_match`,
`determine_po_allowed_actions`, `make_po_step_validator` in
`api/services/agent_runtime.py`)

Database rows and PDF-extraction results are environment inputs; their
fields are those the run-loop logic reads.  Amounts are exact rationals.
`step_history` is only echoed back to the model inside the prompt context
and never influences guards, raises or state flags, so it is omitted from
the state record. -/

/-- A purchase-order candidate row as returned by
`search_purchase_orders`. -/
structure POMatch where
  po_number : String
  amount : Rat
  job_id : String
  gl_code : String
  vendor : String
  confidence : Rat
  deriving DecidableEq

/-- A duplicate-invoice row from `check_duplicate_po`. -/
structure DupRow where
  invoice_number : String
  status : String
  deriving DecidableEq

/-- A project row from `get_project`. -/
structure ProjectRow where
  id : String
  name : String
  division_id : String
  pm_name : String
  pm_email : String
  deriving DecidableEq

/-- An invoice row from the pending-invoice query. -/
structure InvoiceRow where
  invoice_number : String
  amount : Rat
  po_reference : Option String
  file_path : String
  status : String
  vendor : String
  deriving DecidableEq

/-- The fields of `read_invoice_pdf`'s result that the loop reads
(`invoice_data.get("po_reference")`, `invoice_data.get("vendor")`); the
other extracted fields never influence control flow. -/
structure InvoiceData where
  vendor : String
  po_reference : Option String
  deriving DecidableEq

/-- The per-invoice run-local state dict of `run_po_match`. -/
structure POState where
  invoice : InvoiceRow
  invoice_data : Option InvoiceData := none
  po_matches : List POMatch := []
  selected_po : Option POMatch := none
  duplicates : List DupRow := []
  project : Option ProjectRow := none
  searched_po : Bool := false
  checked_duplicate : Bool := false
  coded : Bool := false
  marked_complete : Bool := false
  posted_to_vista : Bool := false
  status : String := "pending"
  exception_reason_code : Option String := none
  details : String := ""
  notified_pm : Bool := false
  deriving DecidableEq

/-- The state as initialised at the top of the per-invoice loop. -/
def initPOState (invoice : InvoiceRow) : POState := { invoice := invoice }

/-- `ordered_unique`. -/
def ordered_unique (values : List String) : List String :=
  go values []
where
  go : List String → List String → List String
    | [], _ => []
    | v :: rest, seen =>
      if v ∈ seen then go rest seen else v :: go rest (v :: seen)

/-- `determine_po_allowed_actions`: the pure allowed-action-set
computation over the state flags. -/
def determine_po_allowed_actions (state : POState) (training_rule_active : Bool) :
    List String :=
  if state.status = "matched" then
    ordered_unique
      ((if state.marked_complete = true ∧ state.posted_to_vista = false
          then ["post_to_vista"] else []) ++
       (if state.posted_to_vista = true then ["complete_invoice"] else []))
  else if state.status = "exception" then
    ordered_unique
      ((if training_rule_active = true ∧
            state.exception_reason_code = some "price_variance" ∧
            state.selected_po.isSome = true ∧ state.notified_pm = false then
          (if state.project.isNone = true
            then ["get_project_details"] else ["send_notification"])
        else []) ++
       ["complete_invoice"])
  else
    -- status == pending
    if state.invoice_data.isNone = true then ["read_invoice"]
    else if state.searched_po = false then ["search_purchase_orders"]
    else
      ordered_unique
        ((if state.po_matches ≠ [] ∧ state.selected_po.isNone = true
            then ["select_po"] else []) ++
         (if state.selected_po.isSome = true ∧ state.checked_duplicate = false
            then ["check_duplicate"] else []) ++
         (if state.checked_duplicate = true ∧ state.duplicates ≠ []
            then ["flag_exception"] else []) ++
         (if state.po_matches = [] then ["flag_exception"] else []) ++
         (if state.selected_po.isSome = true ∧ state.checked_duplicate = true ∧
              state.duplicates = [] ∧ state.coded = false
            then ["assign_coding", "flag_exception"] else []) ++
         (if state.coded = true ∧ state.marked_complete = false
            then ["mark_complete"] else []) ++
         (if state.marked_complete = true ∧ state.posted_to_vista = false
            then ["post_to_vista"] else []))

/-- `_is_non_empty_string` applied to a `dict.get` result. -/
def is_non_empty_string : Option Json → Bool
  | some (Json.jstr s) => pyStrip s ≠ ""
  | _ => false

/-- Insertion sort on strings (Python `sorted`). -/
def insertSorted (s : String) : List String → List String
  | [] => [s]
  | x :: xs => if s ≤ x then s :: x :: xs else x :: insertSorted s xs

def sortStrings : List String → List String
  | [] => []
  | x :: xs => insertSorted x (sortStrings xs)

/-- The per-action required-argument checks of `make_po_step_validator`
(entered only when the action is allowed and `args` is a dict). -/
def po_action_arg_errors (available_po_numbers : List String) (action : String)
    (args : Json) : List String :=
  (if action = "select_po" then
    (if is_non_empty_string (args.getOpt "po_number") = false then
      ["select_po requires args.po_number"]
     else if available_po_numbers ≠ [] ∧
         ¬ pyStrip (pyStr (args.getD "po_number" Json.jnull)) ∈ available_po_numbers then
      ["select_po args.po_number must be in available po matches"]
     else [])
   else []) ++
  (if action = "assign_coding" then
    (if is_non_empty_string (args.getOpt "job_id") = false then
      ["assign_coding requires args.job_id"] else []) ++
    (if is_non_empty_string (args.getOpt "gl_code") = false then
      ["assign_coding requires args.gl_code"] else [])
   else []) ++
  (if action = "flag_exception" then
    (if is_non_empty_string (args.getOpt "reason_code") = false then
      ["flag_exception requires args.reason_code"] else []) ++
    (if is_non_empty_string (args.getOpt "details") = false then
      ["flag_exception requires args.details"] else [])
   else []) ++
  (if action = "get_project_details" then
    (if is_non_empty_string (args.getOpt "project_id") = false then
      ["get_project_details requires args.project_id"] else [])
   else []) ++
  (if action = "send_notification" then
    (["recipient", "subject", "body"].filter
      (fun f => is_non_empty_string (args.getOpt f) = false)).map
      (fun f => "send_notification requires args." ++ f)
   else []) ++
  (if action = "complete_invoice" then
    (if ¬ pyLower (pyStrip (pyStr (args.getD "final_status" (Json.jstr "")))) ∈
        ["matched", "exception"] then
      ["complete_invoice args.final_status must be matched|exception"] else []) ++
    (if ¬ pyLower (pyStrip (pyStr (args.getD "confidence" (Json.jstr "")))) ∈
        ["low", "medium", "high"] then
      ["complete_invoice args.confidence must be low|medium|high"] else []) ++
    (if is_non_empty_string (args.getOpt "summary") = false then
      ["complete_invoice requires args.summary"] else [])
   else [])

/-- `make_po_step_validator allowed_actions available_po_numbers` applied
to a payload: reject an action outside the allowed set outright, then
require a non-empty reason and a dict `args`, then the per-action
argument checks.  (`set(allowed_actions)` is a list here; `sorted(allowed)`
dedupes before sorting.) -/
def make_po_step_validator (allowed_actions available_po_numbers : List String)
    (payload : Json) : List String :=
  let action := pyStrip (pyStr (payload.getD "action" (Json.jstr "")))
  if ¬ action ∈ allowed_actions then
    ["action must be one of: " ++
      joinWith ", " (sortStrings (ordered_unique allowed_actions))]
  else
    (if is_non_empty_string (payload.getOpt "reason") = false then
      ["reason is required"] else []) ++
    (match payload.getOpt "args" with
     | some (Json.jobj kvs) =>
       po_action_arg_errors available_po_numbers action (Json.jobj kvs)
     | _ => ["args must be object"])

/-- Python truthiness of a JSON-compatible value. -/
def pyTruthy : Json → Bool
  | .jnull => false
  | .jbool b => b
  | .jnum q => q ≠ 0
  | .jstr s => s ≠ ""
  | .jarr xs => !xs.isEmpty
  | .jobj kvs => !kvs.isEmpty

/-- Truthiness of an optional string column (`None` and `""` falsy). -/
def pyTruthyOptStr : Option String → Bool
  | some s => s ≠ ""
  | none => false

/-- `normalize_confidence` (call sites pass `str(...)`, so the argument
is a string; Python falsiness of a string is emptiness). -/
def normalize_confidence (value : String) (dflt : String) : String :=
  if value = "" then dflt
  else
    let lowered := pyLower (pyStrip value)
    if lowered ∈ ["low", "medium", "high"] then lowered else dflt

/-- `str(args.get(key, default)).strip()`. -/
def strippedArg (args : Json) (key : String) (default : Json) : String :=
  pyStrip (pyStr (args.getD key default))

/-- `str(args.get("final_status", "")).strip().lower()`. -/
def final_status_of (args : Json) : String :=
  pyLower (strippedArg args "final_status" (Json.jstr ""))

/-- One entry of `processed`: the matched-row shape or the exception-row
shape (optional keys as `Option`). -/
inductive ProcessedRow where
  | matchedRow (invoice_number : String) (po_number : Option String)
      (gl_code : Option String) (confidence : String) (reason : String)
      (match_method : String)
  | exceptionRow (invoice_number : String) (reason : String) (confidence : String)
      (details : String) (variance_amount : Option Rat) (variance_pct : Option Rat)
  deriving DecidableEq

/-- The `complete_invoice` branch of the run loop (the two precondition
raises, then the variance computation and the processed-row build; the
emit and sleep side effects carry no state). -/
def complete_invoice_exec (state : POState) (args : Json) : Except String ProcessedRow :=
  let final_status := final_status_of args
  let confidence := normalize_confidence (pyStr (args.getD "confidence" (Json.jstr "medium"))) "medium"
  let summary := strippedArg args "summary" (Json.jstr "")
  if final_status ≠ state.status then
    .error ("po_match: complete_invoice status mismatch for " ++
      state.invoice.invoice_number ++ " (final_status=" ++ final_status ++
      ", state=" ++ state.status ++ ")")
  else if final_status = "matched" ∧ state.posted_to_vista = false then
    .error ("po_match: matched invoice " ++ state.invoice.invoice_number ++
      " not posted to Vista")
  else
    let variance_amount : Option Rat :=
      state.selected_po.map (fun po => pyRound (state.invoice.amount - po.amount) 2)
    let variance_pct : Option Rat :=
      match state.selected_po with
      | some po =>
        if po.amount ≠ 0 then
          some (pyRound (pyRound (state.invoice.amount - po.amount) 2 / po.amount * 100) 1)
        else none
      | none => none
    if final_status = "matched" then
      .ok (.matchedRow state.invoice.invoice_number
        (state.selected_po.map (·.po_number))
        (state.selected_po.map (·.gl_code))
        confidence summary
        (if pyTruthyOptStr state.invoice.po_reference = true
          then "exact_po" else "fuzzy_vendor_amount"))
    else
      .ok (.exceptionRow state.invoice.invoice_number
        (match state.exception_reason_code with
         | some rc => if rc = "" then "manual_review" else rc
         | none => "manual_review")
        confidence
        (if state.details = "" then summary else state.details)
        variance_amount variance_pct)

/-- `summarize`d PO numbers offered to the validator: the set
comprehension over `state["po_matches"]` in `po_choose_next_action`. -/
def available_po_numbers (state : POState) : List String :=
  ordered_unique
    ((state.po_matches.filter (fun po => pyStrip po.po_number ≠ "")).map
      (fun po => pyStrip po.po_number))

/-- `str(next_action.get("action", "")).strip()`. -/
def actionOf (payload : Json) : String :=
  pyStrip (pyStr (payload.getD "action" (Json.jstr "")))

/-- `next_action.get("args") if isinstance(..., dict) else {}`. -/
def argsOf (payload : Json) : Json :=
  match payload.getOpt "args" with
  | some (Json.jobj kvs) => Json.jobj kvs
  | _ => Json.jobj []

/-- Environment results for one step: what the PDF reader, the PO search,
the duplicate check and the project lookup return if the step calls
them. -/
structure EnvData where
  read_result : InvoiceData
  search_result : List POMatch
  dup_result : List DupRow
  project_result : Option ProjectRow
  deriving DecidableEq

/-- One step's model decision (already through the Acquirer) plus its
environment results. -/
structure StepInput where
  payload : Json
  env : EnvData

/-- Result of one loop iteration: continue with a new state, or break
with the processed row (`complete_invoice`). -/
inductive StepResult where
  | next (s : POState)
  | terminal (row : ProcessedRow)

/-- One iteration of the per-invoice action loop.  `po_choose_next_action`
raises when the allowed set is empty; as proved above for the Acquirer,
it either returns a payload passing
`make_po_step_validator allowed available` or raises, so a failing
payload is modelled as that raised `ModelContractError`.  Then the action
dispatch of `run_po_match` (database reads/writes and emitted events are
environment effects; the state mutations and raises are as in the
source). -/
def po_step (training_rule_active : Bool) (state : POState) (inp : StepInput) :
    Except String StepResult :=
  let allowed := determine_po_allowed_actions state training_rule_active
  if allowed = [] then
    .error ("po_match: no allowed actions available for " ++ state.invoice.invoice_number)
  else if make_po_step_validator allowed (available_po_numbers state) inp.payload ≠ [] then
    .error ("po_match: model output failed schema validation")
  else
    let action := actionOf inp.payload
    let args := argsOf inp.payload
    if action = "read_invoice" then
      .ok (.next { state with invoice_data := some inp.env.read_result })
    else if action = "search_purchase_orders" then
      .ok (.next { state with po_matches := inp.env.search_result, searched_po := true })
    else if action = "select_po" then
      let po_number := strippedArg args "po_number" (Json.jstr "")
      match state.po_matches.find? (fun po => po.po_number = po_number) with
      | none => .error ("po_match: select_po could not find " ++ po_number)
      | some po => .ok (.next { state with selected_po := some po })
    else if action = "check_duplicate" then
      let raw := args.getD "po_number" Json.jnull
      let po_number := pyStrip (pyStr (if pyTruthy raw = true then raw
        else Json.jstr (match state.selected_po with
          | some po => po.po_number
          | none => "")))
      if po_number = "" then .error "po_match: check_duplicate requires selected PO"
      else .ok (.next { state with
          duplicates := inp.env.dup_result, checked_duplicate := true })
    else if action = "assign_coding" then
      let job_id := strippedArg args "job_id" (Json.jstr "")
      let gl_code := strippedArg args "gl_code" (Json.jstr "")
      .ok (.next { state with
        selected_po := state.selected_po.map
          (fun po => { po with job_id := job_id, gl_code := gl_code }),
        coded := true })
    else if action = "mark_complete" then
      .ok (.next { state with status := "matched", marked_complete := true })
    else if action = "post_to_vista" then
      .ok (.next { state with posted_to_vista := true })
    else if action = "flag_exception" then
      let reason_code := pyLower (strippedArg args "reason_code" (Json.jstr ""))
      let details := strippedArg args "details" (Json.jstr "")
      .ok (.next { state with
          status := "exception", exception_reason_code := some reason_code,
          details := details })
    else if action = "get_project_details" then
      let raw := args.getD "project_id" Json.jnull
      let project_id := pyStrip (pyStr (if pyTruthy raw = true then raw
        else Json.jstr (match state.selected_po with
          | some po => po.job_id
          | none => "")))
      if project_id = "" then .error "po_match: get_project_details requires project_id"
      else .ok (.next { state with project := inp.env.project_result })
    else if action = "send_notification" then
      .ok (.next { state with notified_pm := true })
    else if action = "complete_invoice" then
      match complete_invoice_exec state args with
      | .error e => .error e
      | .ok row => .ok (.terminal row)
    else
      .error ("po_match: unsupported action '" ++ action ++ "'")

/-- The bounded per-invoice loop `for step in range(1, max_steps + 1)`
with `max_steps = 16`, driven by a script of per-step inputs;
exhausting the range raises the step-limit error (the `for`/`else`
branch).  On a normal break the step number at which `complete_invoice`
executed is returned alongside the row. -/
def po_loop (training : Bool) (script : Nat → StepInput) :
    Nat → Nat → POState → Except String (ProcessedRow × Nat)
  | 0, _step, state =>
    .error ("po_match: step limit exceeded for " ++ state.invoice.invoice_number)
  | remaining + 1, step, state =>
    match po_step training state (script step) with
    | .error e => .error e
    | .ok (.terminal row) => .ok (row, step)
    | .ok (.next s) => po_loop training script remaining (step + 1) s

def max_steps : Nat := 16

/-- The whole per-invoice loop from step 1 on a fresh state budget. -/
def po_run (training : Bool) (script : Nat → StepInput) (s0 : POState) :
    Except String (ProcessedRow × Nat) :=
  po_loop training script max_steps 1 s0

/-- States reachable by the invoice-matching state machine: the freshly
initialised per-invoice state, closed under successful non-terminal
steps. -/
inductive POReach (training : Bool) (inv : InvoiceRow) : POState → Prop where
  | init : POReach training inv (initPOState inv)
  | step (s s' : POState) (inp : StepInput) :
      POReach training inv s →
      po_step training s inp = .ok (.next s') →
      POReach training inv s'

end AgentDemo

namespace AgentDemo

/-! ### Claim C6 -/

/-- C6: executing `complete_invoice` raises exactly when a precondition is
violated — the chosen `final_status` differs from the state's current
status, or `final_status` is `matched` while the invoice has not been
posted to Vista; with neither violated it returns the processed row
without raising. -/
theorem complete_invoice_raise_iff (state : POState) (args : Json) :
    (∃ e, complete_invoice_exec state args = .error e) ↔
      (final_status_of args ≠ state.status ∨
        (final_status_of args = "matched" ∧ state.posted_to_vista = false)) := by
  constructor
  · rintro ⟨e, he⟩
    by_contra hcon
    push_neg at hcon
    obtain ⟨hs, hm⟩ := hcon
    simp only [complete_invoice_exec] at he
    rw [if_neg (by simp [hs])] at he
    rw [if_neg (fun hand => hm hand.1 hand.2)] at he
    split at he <;> simp at he
  · intro h
    rcases h with h | h
    · exact ⟨_, by simp only [complete_invoice_exec]; rw [if_pos h]⟩
    · by_cases hne : final_status_of args ≠ state.status
      · exact ⟨_, by simp only [complete_invoice_exec]; rw [if_pos hne]⟩
      · exact ⟨_, by simp only [complete_invoice_exec]; rw [if_neg hne, if_pos h]⟩

end AgentDemo

namespace AgentDemo

/-! ### Claim C9 -/

theorem po_step_terminal_action (t : Bool) (s : POState) (inp : StepInput)
    (row : ProcessedRow) (h : po_step t s inp = .ok (.terminal row)) :
    actionOf inp.payload = "complete_invoice" ∧
    complete_invoice_exec s (argsOf inp.payload) = .ok row := by
  simp only [po_step] at h
  by_cases h0 : determine_po_allowed_actions s t = []
  · rw [if_pos h0] at h; exact Except.noConfusion h
  rw [if_neg h0] at h
  by_cases h1 : make_po_step_validator (determine_po_allowed_actions s t)
      (available_po_numbers s) inp.payload = []
  case neg => rw [if_pos h1] at h; exact Except.noConfusion h
  rw [if_neg (not_not_intro h1)] at h
  by_cases a1 : actionOf inp.payload = "read_invoice"
  · rw [if_pos a1] at h; exact StepResult.noConfusion (Except.ok.inj h)
  rw [if_neg a1] at h
  by_cases a2 : actionOf inp.payload = "search_purchase_orders"
  · rw [if_pos a2] at h; exact StepResult.noConfusion (Except.ok.inj h)
  rw [if_neg a2] at h
  by_cases a3 : actionOf inp.payload = "select_po"
  · rw [if_pos a3] at h
    split at h
    · exact Except.noConfusion h
    · exact StepResult.noConfusion (Except.ok.inj h)
  rw [if_neg a3] at h
  by_cases a4 : actionOf inp.payload = "check_duplicate"
  · rw [if_pos a4] at h
    repeat' split at h
    all_goals first
      | exact Except.noConfusion h
      | exact StepResult.noConfusion (Except.ok.inj h)
  rw [if_neg a4] at h
  by_cases a5 : actionOf inp.payload = "assign_coding"
  · rw [if_pos a5] at h; exact StepResult.noConfusion (Except.ok.inj h)
  rw [if_neg a5] at h
  by_cases a6 : actionOf inp.payload = "mark_complete"
  · rw [if_pos a6] at h; exact StepResult.noConfusion (Except.ok.inj h)
  rw [if_neg a6] at h
  by_cases a7 : actionOf inp.payload = "post_to_vista"
  · rw [if_pos a7] at h; exact StepResult.noConfusion (Except.ok.inj h)
  rw [if_neg a7] at h
  by_cases a8 : actionOf inp.payload = "flag_exception"
  · rw [if_pos a8] at h; exact StepResult.noConfusion (Except.ok.inj h)
  rw [if_neg a8] at h
  by_cases a9 : actionOf inp.payload = "get_project_details"
  · rw [if_pos a9] at h
    repeat' split at h
    all_goals first
      | exact Except.noConfusion h
      | exact StepResult.noConfusion (Except.ok.inj h)
  rw [if_neg a9] at h
  by_cases a10 : actionOf inp.payload = "send_notification"
  · rw [if_pos a10] at h; exact StepResult.noConfusion (Except.ok.inj h)
  rw [if_neg a10] at h
  by_cases a11 : actionOf inp.payload = "complete_invoice"
  · rw [if_pos a11] at h
    split at h
    · exact Except.noConfusion h
    · rename_i rowX heq
      have hrow := StepResult.terminal.inj (Except.ok.inj h)
      exact ⟨a11, hrow ▸ heq⟩
  · rw [if_neg a11] at h; exact Except.noConfusion h

theorem po_step_invoice_eq (t : Bool) (s : POState) (inp : StepInput)
    (s' : POState) (h : po_step t s inp = .ok (.next s')) :
    s'.invoice = s.invoice := by
  simp only [po_step] at h
  by_cases h0 : determine_po_allowed_actions s t = []
  · rw [if_pos h0] at h; exact Except.noConfusion h
  rw [if_neg h0] at h
  by_cases h1 : make_po_step_validator (determine_po_allowed_actions s t)
      (available_po_numbers s) inp.payload = []
  case neg => rw [if_pos h1] at h; exact Except.noConfusion h
  rw [if_neg (not_not_intro h1)] at h
  by_cases a1 : actionOf inp.payload = "read_invoice"
  · rw [if_pos a1] at h; rw [← StepResult.next.inj (Except.ok.inj h)]
  rw [if_neg a1] at h
  by_cases a2 : actionOf inp.payload = "search_purchase_orders"
  · rw [if_pos a2] at h; rw [← StepResult.next.inj (Except.ok.inj h)]
  rw [if_neg a2] at h
  by_cases a3 : actionOf inp.payload = "select_po"
  · rw [if_pos a3] at h
    split at h
    · exact Except.noConfusion h
    · rw [← StepResult.next.inj (Except.ok.inj h)]
  rw [if_neg a3] at h
  by_cases a4 : actionOf inp.payload = "check_duplicate"
  · rw [if_pos a4] at h
    repeat' split at h
    all_goals first
      | exact Except.noConfusion h
      | rw [← StepResult.next.inj (Except.ok.inj h)]
  rw [if_neg a4] at h
  by_cases a5 : actionOf inp.payload = "assign_coding"
  · rw [if_pos a5] at h; rw [← StepResult.next.inj (Except.ok.inj h)]
  rw [if_neg a5] at h
  by_cases a6 : actionOf inp.payload = "mark_complete"
  · rw [if_pos a6] at h; rw [← StepResult.next.inj (Except.ok.inj h)]
  rw [if_neg a6] at h
  by_cases a7 : actionOf inp.payload = "post_to_vista"
  · rw [if_pos a7] at h; rw [← StepResult.next.inj (Except.ok.inj h)]
  rw [if_neg a7] at h
  by_cases a8 : actionOf inp.payload = "flag_exception"
  · rw [if_pos a8] at h; rw [← StepResult.next.inj (Except.ok.inj h)]
  rw [if_neg a8] at h
  by_cases a9 : actionOf inp.payload = "get_project_details"
  · rw [if_pos a9] at h
    repeat' split at h
    all_goals first
      | exact Except.noConfusion h
      | rw [← StepResult.next.inj (Except.ok.inj h)]
  rw [if_neg a9] at h
  by_cases a10 : actionOf inp.payload = "send_notification"
  · rw [if_pos a10] at h; rw [← StepResult.next.inj (Except.ok.inj h)]
  rw [if_neg a10] at h
  by_cases a11 : actionOf inp.payload = "complete_invoice"
  · rw [if_pos a11] at h
    split at h
    · exact Except.noConfusion h
    · exact StepResult.noConfusion (Except.ok.inj h)
  · rw [if_neg a11] at h; exact Except.noConfusion h

theorem po_loop_ok_bounds (t : Bool) (script : Nat → StepInput) :
    ∀ (r step : Nat) (s : POState) (row : ProcessedRow) (n : Nat),
      po_loop t script r step s = .ok (row, n) →
      step ≤ n ∧ n < step + r ∧ actionOf (script n).payload = "complete_invoice" := by
  intro r
  induction r with
  | zero =>
    intro step s row n h
    simp [po_loop] at h
  | succ r ih =>
    intro step s row n h
    rw [po_loop] at h
    split at h
    · simp at h
    · rename_i rowX heq
      have hp := Except.ok.inj h
      have h1 : rowX = row := congrArg Prod.fst hp
      have h2 : step = n := congrArg Prod.snd hp
      subst h1
      subst h2
      exact ⟨le_refl _, by omega, (po_step_terminal_action t s (script step) rowX heq).1⟩
    · rename_i sX heq
      obtain ⟨b1, b2, b3⟩ := ih (step + 1) sX row n h
      exact ⟨by omega, by omega, b3⟩

theorem po_loop_all_next (t : Bool) (script : Nat → StepInput) :
    ∀ (r step : Nat) (states : Nat → POState),
      (∀ k, step ≤ k → k < step + r →
        po_step t (states k) (script k) = .ok (.next (states (k + 1)))) →
      po_loop t script r step (states step) =
        .error ("po_match: step limit exceeded for " ++
          (states (step + r)).invoice.invoice_number) := by
  intro r
  induction r with
  | zero =>
    intro step states _
    simp [po_loop]
  | succ r ih =>
    intro step states h
    rw [po_loop, h step (le_refl step) (by omega)]
    have e : step + (r + 1) = (step + 1) + r := by omega
    rw [e]
    exact ih (step + 1) states (fun k hk1 hk2 => h k (by omega) (by omega))

/-- C9: the per-invoice action loop makes at most 16 steps — a normal
exit happens only at a step whose scripted action is the terminal
`complete_invoice` (at some step `1 ≤ n ≤ 16`), and when all 16 steps
yield non-terminal continuations the run fails with the fatal
step-limit-exceeded error instead of looping further. -/
theorem po_match_step_ceiling (training : Bool) (script : Nat → StepInput)
    (s0 : POState) :
    (∀ (row : ProcessedRow) (n : Nat), po_run training script s0 = .ok (row, n) →
      1 ≤ n ∧ n ≤ 16 ∧ actionOf (script n).payload = "complete_invoice") ∧
    (∀ states : Nat → POState, states 1 = s0 →
      (∀ k, 1 ≤ k → k ≤ 16 →
        po_step training (states k) (script k) = .ok (.next (states (k + 1)))) →
      po_run training script s0 =
        .error ("po_match: step limit exceeded for " ++ s0.invoice.invoice_number)) := by
  constructor
  · intro row n h
    obtain ⟨b1, b2, b3⟩ := po_loop_ok_bounds training script max_steps 1 s0 row n h
    refine ⟨b1, ?_, b3⟩
    simp only [max_steps] at b2
    omega
  · intro states h1 hsteps
    have hinv : ∀ j, j ≤ 16 → (states (1 + j)).invoice = s0.invoice := by
      intro j
      induction j with
      | zero => intro _; simpa using congrArg POState.invoice h1
      | succ j ihj =>
        intro hj
        have hstep := hsteps (1 + j) (by omega) (by omega)
        have := po_step_invoice_eq training (states (1 + j)) (script (1 + j))
          (states (1 + j + 1)) hstep
        rw [show 1 + (j + 1) = 1 + j + 1 by omega, this, ihj (by omega)]
    have key := po_loop_all_next training script max_steps 1 states
      (fun k hk1 hk2 => hsteps k hk1 (by simp only [max_steps] at hk2; omega))
    rw [h1] at key
    rw [po_run, key]
    have : (states (1 + max_steps)).invoice = s0.invoice := hinv 16 (by omega)
    rw [show (1 + max_steps) = 1 + 16 from rfl] at this
    rw [show (1 : Nat) + max_steps = 1 + 16 from rfl]
    rw [this]

/-- Witness for C9 at a single-step script that immediately completes an
exception-status invoice. -/
theorem po_match_step_ceiling_witness :
    1 ≤ 1 ∧ 1 ≤ 16 ∧
      actionOf ((fun _ : Nat =>
        (⟨Json.jobj [("action", Json.jstr "complete_invoice"),
            ("reason", Json.jstr "done"),
            ("args", Json.jobj [("final_status", Json.jstr "exception"),
              ("confidence", Json.jstr "low"), ("summary", Json.jstr "s")])],
          ⟨⟨"Acme", none⟩, [], [], none⟩⟩ : StepInput)) 1).payload =
        "complete_invoice" :=
  (po_match_step_ceiling false
      (fun _ =>
        ⟨Json.jobj [("action", Json.jstr "complete_invoice"),
            ("reason", Json.jstr "done"),
            ("args", Json.jobj [("final_status", Json.jstr "exception"),
              ("confidence", Json.jstr "low"), ("summary", Json.jstr "s")])],
          ⟨⟨"Acme", none⟩, [], [], none⟩⟩)
      { initPOState ⟨"INV-1", 100, none, "f.pdf", "pending", "Acme"⟩ with
          status := "exception" }).1
     (.exceptionRow "INV-1" "manual_review" "low" "s" none none) 1 rfl

end AgentDemo

namespace AgentDemo

/-! ### Claim C5 -/

theorem mem_ordered_unique_go (x : String) : ∀ (l seen : List String),
    x ∈ ordered_unique.go l seen ↔ x ∈ l ∧ ¬ x ∈ seen := by
  intro l
  induction l with
  | nil => intro seen; simp [ordered_unique.go]
  | cons v rest ih =>
    intro seen
    rw [ordered_unique.go]
    split
    · rename_i hv
      rw [ih]
      constructor
      · rintro ⟨h1, h2⟩
        exact ⟨List.mem_cons_of_mem _ h1, h2⟩
      · rintro ⟨h1, h2⟩
        rcases List.mem_cons.mp h1 with h1 | h1
        · subst h1; exact absurd hv h2
        · exact ⟨h1, h2⟩
    · rename_i hv
      rw [List.mem_cons, ih]
      constructor
      · rintro (h | ⟨h1, h2⟩)
        · subst h; exact ⟨List.mem_cons_self _ _, hv⟩
        · refine ⟨List.mem_cons_of_mem _ h1, fun hc => h2 ?_⟩
          exact List.mem_cons_of_mem _ hc
      · rintro ⟨h1, h2⟩
        by_cases hx : x = v
        · exact Or.inl hx
        · rcases List.mem_cons.mp h1 with h1 | h1
          · exact absurd h1 hx
          · refine Or.inr ⟨h1, fun hc => ?_⟩
            rcases List.mem_cons.mp hc with hc | hc
            · exact hx hc
            · exact h2 hc

theorem mem_ordered_unique (x : String) (l : List String) :
    x ∈ ordered_unique l ↔ x ∈ l := by
  rw [ordered_unique, mem_ordered_unique_go]
  simp

theorem mem_ite_nil {c : Prop} [Decidable c] (x : String) (l : List String) :
    (x ∈ if c then l else []) ↔ c ∧ x ∈ l := by
  split <;> rename_i h <;> simp [h]

theorem mem_ite_lists {c : Prop} [Decidable c] (x : String) (l1 l2 : List String) :
    (x ∈ if c then l1 else l2) ↔ (c ∧ x ∈ l1) ∨ (¬ c ∧ x ∈ l2) := by
  split <;> rename_i h <;> simp [h]

theorem post_to_vista_needs_marked (s : POState) (t : Bool)
    (h : "post_to_vista" ∈ determine_po_allowed_actions s t) :
    s.marked_complete = true := by
  unfold determine_po_allowed_actions at h
  split at h
  · rw [mem_ordered_unique] at h
    simp only [List.mem_append, mem_ite_nil] at h
    rcases h with ⟨⟨hm, _⟩, _⟩ | ⟨_, hmem⟩
    · exact hm
    · simp at hmem
  · split at h
    · rw [mem_ordered_unique] at h
      simp [mem_ite_nil, mem_ite_lists] at h
    · split at h
      · simp at h
      · split at h
        · simp at h
        · rw [mem_ordered_unique] at h
          simp only [List.mem_append, mem_ite_nil] at h
          simp at h
          tauto

theorem search_mem_implies_data (s : POState) (t : Bool)
    (h : "search_purchase_orders" ∈ determine_po_allowed_actions s t) :
    s.invoice_data.isSome = true := by
  unfold determine_po_allowed_actions at h
  split at h
  · rw [mem_ordered_unique] at h
    simp [mem_ite_nil] at h
  · split at h
    · rw [mem_ordered_unique] at h
      simp [mem_ite_nil, mem_ite_lists] at h
    · split at h
      · simp at h
      · rename_i hnn
        rcases hdata : s.invoice_data with _ | v
        · simp [hdata] at hnn
        · rfl

theorem validator_pass_action_mem (allowed nums : List String) (payload : Json)
    (h : make_po_step_validator allowed nums payload = []) :
    actionOf payload ∈ allowed := by
  simp only [make_po_step_validator] at h
  split at h
  · simp at h
  · rename_i hmem
    exact not_not.mp hmem

theorem complete_exec_ok_status (s : POState) (args : Json) (row : ProcessedRow)
    (h : complete_invoice_exec s args = .ok row) : final_status_of args = s.status := by
  by_contra hne
  simp only [complete_invoice_exec] at h
  rw [if_pos hne] at h
  exact Except.noConfusion h

theorem po_step_preserves_search_inv (t : Bool) (s : POState) (inp : StepInput)
    (s' : POState) (h : po_step t s inp = .ok (.next s'))
    (ih : s.searched_po = true → s.invoice_data.isSome = true) :
    s'.searched_po = true → s'.invoice_data.isSome = true := by
  simp only [po_step] at h
  by_cases h0 : determine_po_allowed_actions s t = []
  · rw [if_pos h0] at h; exact Except.noConfusion h
  rw [if_neg h0] at h
  by_cases h1 : make_po_step_validator (determine_po_allowed_actions s t)
      (available_po_numbers s) inp.payload = []
  case neg => rw [if_pos h1] at h; exact Except.noConfusion h
  rw [if_neg (not_not_intro h1)] at h
  by_cases a1 : actionOf inp.payload = "read_invoice"
  · rw [if_pos a1] at h
    rw [← StepResult.next.inj (Except.ok.inj h)]
    intro _
    rfl
  rw [if_neg a1] at h
  by_cases a2 : actionOf inp.payload = "search_purchase_orders"
  · rw [if_pos a2] at h
    rw [← StepResult.next.inj (Except.ok.inj h)]
    intro _
    have hmem := validator_pass_action_mem _ _ _ h1
    rw [a2] at hmem
    exact search_mem_implies_data s t hmem
  rw [if_neg a2] at h
  by_cases a3 : actionOf inp.payload = "select_po"
  · rw [if_pos a3] at h
    split at h
    · exact Except.noConfusion h
    · rw [← StepResult.next.inj (Except.ok.inj h)]
      exact ih
  rw [if_neg a3] at h
  by_cases a4 : actionOf inp.payload = "check_duplicate"
  · rw [if_pos a4] at h
    repeat' split at h
    all_goals first
      | exact Except.noConfusion h
      | (rw [← StepResult.next.inj (Except.ok.inj h)]; exact ih)
  rw [if_neg a4] at h
  by_cases a5 : actionOf inp.payload = "assign_coding"
  · rw [if_pos a5] at h
    rw [← StepResult.next.inj (Except.ok.inj h)]
    exact ih
  rw [if_neg a5] at h
  by_cases a6 : actionOf inp.payload = "mark_complete"
  · rw [if_pos a6] at h
    rw [← StepResult.next.inj (Except.ok.inj h)]
    exact ih
  rw [if_neg a6] at h
  by_cases a7 : actionOf inp.payload = "post_to_vista"
  · rw [if_pos a7] at h
    rw [← StepResult.next.inj (Except.ok.inj h)]
    exact ih
  rw [if_neg a7] at h
  by_cases a8 : actionOf inp.payload = "flag_exception"
  · rw [if_pos a8] at h
    rw [← StepResult.next.inj (Except.ok.inj h)]
    exact ih
  rw [if_neg a8] at h
  by_cases a9 : actionOf inp.payload = "get_project_details"
  · rw [if_pos a9] at h
    repeat' split at h
    all_goals first
      | exact Except.noConfusion h
      | (rw [← StepResult.next.inj (Except.ok.inj h)]; exact ih)
  rw [if_neg a9] at h
  by_cases a10 : actionOf inp.payload = "send_notification"
  · rw [if_pos a10] at h
    rw [← StepResult.next.inj (Except.ok.inj h)]
    exact ih
  rw [if_neg a10] at h
  by_cases a11 : actionOf inp.payload = "complete_invoice"
  · rw [if_pos a11] at h
    split at h
    · exact Except.noConfusion h
    · exact StepResult.noConfusion (Except.ok.inj h)
  · rw [if_neg a11] at h; exact Except.noConfusion h

theorem reach_search_inv (t : Bool) (inv : InvoiceRow) :
    ∀ s, POReach t inv s → s.searched_po = true → s.invoice_data.isSome = true := by
  intro s h
  induction h with
  | init => intro hs; simp [initPOState] at hs
  | step s s' inp _ hstep ih =>
    exact po_step_preserves_search_inv t s inp s' hstep ih

theorem flag_exception_when_no_matches (s : POState) (t : Bool)
    (hst : s.status = "pending") (hsrch : s.searched_po = true)
    (hdata : s.invoice_data.isSome = true) (hmatches : s.po_matches = []) :
    "flag_exception" ∈ determine_po_allowed_actions s t := by
  have hnone : s.invoice_data.isNone = false := by
    rcases hd : s.invoice_data with _ | v
    · rw [hd] at hdata; simp at hdata
    · rfl
  unfold determine_po_allowed_actions
  rw [if_neg (by simp [hst]), if_neg (by simp [hst]), if_neg (by simp [hnone]),
    if_neg (by simp [hsrch])]
  rw [mem_ordered_unique]
  simp only [List.mem_append, mem_ite_nil]
  exact Or.inl (Or.inl (Or.inl (Or.inr ⟨hmatches, by simp⟩)))

def cexInv : InvoiceRow := ⟨"INV-1", 100, none, "f.pdf", "pending", "Acme"⟩

def cexEnv : EnvData := ⟨⟨"Acme", none⟩, [], [], none⟩

def cexPayload (a : String) (kvs : List (String × Json)) : Json :=
  Json.jobj [("action", Json.jstr a), ("reason", Json.jstr "r"), ("args", Json.jobj kvs)]

def cexS1 : POState := { initPOState cexInv with invoice_data := some ⟨"Acme", none⟩ }

def cexS2 : POState := { cexS1 with po_matches := [], searched_po := true }

def cexS3 : POState :=
  { cexS2 with
      status := "exception", exception_reason_code := some "no_po_match", details := "d" }

/-- C5 as stated is false: the state reached by flagging an exception
after a PO search that returned no candidates is reachable, still has no
match candidates, yet its allowed-action set is just
`["complete_invoice"]` — `flag_exception` is no longer offered once the
status is `exception`. -/
theorem flag_exception_missing_after_exception :
    POReach false cexInv cexS3 ∧ cexS3.searched_po = true ∧ cexS3.po_matches = [] ∧
    determine_po_allowed_actions cexS3 false = ["complete_invoice"] ∧
    ¬ "flag_exception" ∈ determine_po_allowed_actions cexS3 false := by
  refine ⟨?_, rfl, rfl, rfl, by decide⟩
  refine POReach.step cexS2 cexS3
    ⟨cexPayload "flag_exception"
      [("reason_code", Json.jstr "no_po_match"), ("details", Json.jstr "d")], cexEnv⟩
    ?_ rfl
  refine POReach.step cexS1 cexS2
    ⟨cexPayload "search_purchase_orders" [], cexEnv⟩ ?_ rfl
  exact POReach.step (initPOState cexInv) cexS1
    ⟨cexPayload "read_invoice" [], cexEnv⟩ POReach.init rfl

/-- C5 amended: over all reachable states of the invoice-matching state
machine, (a) `post_to_vista` is never offered before `mark_complete` has
set the `marked_complete` flag; (b) a `complete_invoice` action can only
execute (without raising) with a `final_status` equal to the state's
current status; and (c) while the state is still `pending`, after a PO
search that returned no candidates, `flag_exception` is always offered —
but not once the status is `exception` (see the counterexample). -/
theorem po_allowed_action_gating (t : Bool) (inv : InvoiceRow) :
    (∀ s, POReach t inv s →
      "post_to_vista" ∈ determine_po_allowed_actions s t → s.marked_complete = true) ∧
    (∀ s inp row, POReach t inv s → po_step t s inp = .ok (.terminal row) →
      final_status_of (argsOf inp.payload) = s.status) ∧
    (∀ s, POReach t inv s → s.status = "pending" → s.searched_po = true →
      s.po_matches = [] → "flag_exception" ∈ determine_po_allowed_actions s t) := by
  refine ⟨?_, ?_, ?_⟩
  · intro s _ h
    exact post_to_vista_needs_marked s t h
  · intro s inp row _ hstep
    exact complete_exec_ok_status s (argsOf inp.payload) row
      (po_step_terminal_action t s inp row hstep).2
  · intro s hr hst hsrch hm
    exact flag_exception_when_no_matches s t hst hsrch
      (reach_search_inv t inv s hr hsrch) hm

/-- Witness for the amended C5: at the reachable pending state whose PO
search returned no candidates, `flag_exception` is offered. -/
theorem po_allowed_action_gating_witness :
    "flag_exception" ∈ determine_po_allowed_actions cexS2 false :=
  (po_allowed_action_gating false cexInv).2.2 cexS2
    (POReach.step cexS1 cexS2 ⟨cexPayload "search_purchase_orders" [], cexEnv⟩
      (POReach.step (initPOState cexInv) cexS1
        ⟨cexPayload "read_invoice" [], cexEnv⟩ POReach.init rfl) rfl)
    rfl rfl rfl

end AgentDemo